import Mathlib

/-!
Verification development for the Randall sport-camera controller firmware.

The definitions below are a shallow embedding of the firmware sources:
  * `enums.h`             — system vocabulary (events, states, actions, patterns)
  * `event_queue.cpp` / `action_queue.cpp` — the generic drop-new ring buffer
  * `drv_dvr_status.cpp`  — LED-pattern → semantic-event interpreter
  * `dvr_led.cpp`         — LED edge classifier (quiet-time rule)
  * `controller_fsm.cpp` + `ui_policy.cpp` — the controller state machine
  * `executor.cpp`        — the LED / beeper / device-press engines

Machine integers are modelled as `Nat` with explicit `% 2^32` (resp. `% 2^16`,
`% 2^8`) wherever the C code relies on fixed-width wraparound.  Times are the
firmware's `uint32_t` millisecond counters.
-/

set_option maxHeartbeats 1600000

namespace Randall

/-- `uint32_t` modulus. -/
def U32 : Nat := 4294967296

/-- enums.h: event identifiers (the revision that includes the derived DVR
semantic events, as consumed by `controller_fsm.cpp`). -/
inductive event_id_t where
  | EV_NONE
  | EV_LTC_INT_ASSERTED
  | EV_LTC_INT_DEASSERTED
  | EV_BTN_SHORT_PRESS
  | EV_BTN_LONG_PRESS
  | EV_DVR_LED_PATTERN_CHANGED
  | EV_DVR_LED_EDGE_ON
  | EV_DVR_LED_EDGE_OFF
  | EV_BAT_STATE_CHANGED
  | EV_BAT_LOCKOUT_ENTER
  | EV_BAT_LOCKOUT_EXIT
  | EV_DVR_POWERED_ON_IDLE
  | EV_DVR_RECORD_STARTED
  | EV_DVR_RECORD_STOPPED
  | EV_DVR_POWERED_OFF
  | EV_DVR_ERROR
deriving DecidableEq, Repr, Inhabited

export event_id_t (EV_NONE EV_LTC_INT_ASSERTED EV_LTC_INT_DEASSERTED
  EV_BTN_SHORT_PRESS EV_BTN_LONG_PRESS EV_DVR_LED_PATTERN_CHANGED
  EV_DVR_LED_EDGE_ON EV_DVR_LED_EDGE_OFF EV_BAT_STATE_CHANGED
  EV_BAT_LOCKOUT_ENTER EV_BAT_LOCKOUT_EXIT EV_DVR_POWERED_ON_IDLE
  EV_DVR_RECORD_STARTED EV_DVR_RECORD_STOPPED EV_DVR_POWERED_OFF EV_DVR_ERROR)

/-- enums.h: event sources. -/
inductive event_source_t where
  | SRC_NONE | SRC_LTC | SRC_BUTTON | SRC_DVR_LED | SRC_DVR_STATUS
  | SRC_BATTERY | SRC_FSM
deriving DecidableEq, Repr, Inhabited

export event_source_t (SRC_NONE SRC_LTC SRC_BUTTON SRC_DVR_LED SRC_DVR_STATUS
  SRC_BATTERY SRC_FSM)

/-- enums.h: event reasons. -/
inductive event_reason_t where
  | EVR_NONE | EVR_EDGE_RISE | EVR_EDGE_FALL | EVR_TIMEOUT
  | EVR_CLASSIFIER_STABLE | EVR_SAMPLE_PERIODIC | EVR_HYSTERESIS | EVR_INTERNAL
deriving DecidableEq, Repr, Inhabited

export event_reason_t (EVR_NONE EVR_EDGE_RISE EVR_EDGE_FALL EVR_TIMEOUT
  EVR_CLASSIFIER_STABLE EVR_SAMPLE_PERIODIC EVR_HYSTERESIS EVR_INTERNAL)

/-- enums.h: LED-pattern classification of the DVR status LED. -/
inductive dvr_led_pattern_t where
  | DVR_LED_UNKNOWN | DVR_LED_OFF | DVR_LED_SOLID | DVR_LED_SLOW_BLINK
  | DVR_LED_FAST_BLINK | DVR_LED_ABNORMAL_BOOT
deriving DecidableEq, Repr, Inhabited

export dvr_led_pattern_t (DVR_LED_UNKNOWN DVR_LED_OFF DVR_LED_SOLID
  DVR_LED_SLOW_BLINK DVR_LED_FAST_BLINK DVR_LED_ABNORMAL_BOOT)

/-- enums.h: battery classification. -/
inductive battery_state_t where
  | BAT_UNKNOWN | BAT_FULL | BAT_HALF | BAT_LOW | BAT_CRITICAL
deriving DecidableEq, Repr, Inhabited

export battery_state_t (BAT_UNKNOWN BAT_FULL BAT_HALF BAT_LOW BAT_CRITICAL)

/-- enums.h: controller lifecycle states. -/
inductive controller_state_t where
  | STATE_OFF | STATE_BOOTING | STATE_IDLE | STATE_RECORDING
  | STATE_LOW_BAT | STATE_ERROR | STATE_LOCKOUT
deriving DecidableEq, Repr, Inhabited

export controller_state_t (STATE_OFF STATE_BOOTING STATE_IDLE STATE_RECORDING
  STATE_LOW_BAT STATE_ERROR STATE_LOCKOUT)

/-- enums.h: error codes. -/
inductive error_code_t where
  | ERR_NONE | ERR_DVR_BOOT_TIMEOUT | ERR_DVR_ABNORMAL_BOOT | ERR_DVR_CARD_ERROR
  | ERR_BAT_CRITICAL | ERR_BAT_LOCKOUT | ERR_ILLEGAL_STATE | ERR_UNEXPECTED_EVENT
  | ERR_UNEXPECTED_LED_PATTERN
deriving DecidableEq, Repr, Inhabited

export error_code_t (ERR_NONE ERR_DVR_BOOT_TIMEOUT ERR_DVR_ABNORMAL_BOOT
  ERR_DVR_CARD_ERROR ERR_BAT_CRITICAL ERR_BAT_LOCKOUT ERR_ILLEGAL_STATE
  ERR_UNEXPECTED_EVENT ERR_UNEXPECTED_LED_PATTERN)

/-- enums.h: action identifiers (revision with the DVR press actions, as
consumed by the committed `executor.cpp`). -/
inductive action_id_t where
  | ACT_NONE | ACT_BEEP | ACT_LED_PATTERN | ACT_DVR_PRESS_SHORT
  | ACT_DVR_PRESS_LONG | ACT_LTC_KILL_ASSERT | ACT_LTC_KILL_DEASSERT
  | ACT_CLEAR_PENDING | ACT_ENTER_LOCKOUT | ACT_EXIT_LOCKOUT
deriving DecidableEq, Repr, Inhabited

export action_id_t (ACT_NONE ACT_BEEP ACT_LED_PATTERN ACT_DVR_PRESS_SHORT
  ACT_DVR_PRESS_LONG ACT_LTC_KILL_ASSERT ACT_LTC_KILL_DEASSERT
  ACT_CLEAR_PENDING ACT_ENTER_LOCKOUT ACT_EXIT_LOCKOUT)

/-- enums.h: beep patterns. -/
inductive beep_pattern_t where
  | BEEP_NONE | BEEP_SINGLE | BEEP_DOUBLE | BEEP_TRIPLE | BEEP_ERROR_FAST
  | BEEP_LOW_BAT
deriving DecidableEq, Repr, Inhabited

export beep_pattern_t (BEEP_NONE BEEP_SINGLE BEEP_DOUBLE BEEP_TRIPLE
  BEEP_ERROR_FAST BEEP_LOW_BAT)

/-- enums.h: LED output patterns of the status light (revision with
`LED_NONE = 0`). -/
inductive led_pattern_t where
  | LED_NONE | LED_OFF | LED_SOLID | LED_SLOW_BLINK | LED_FAST_BLINK
  | LED_LOCKOUT_PATTERN | LED_ERROR_PATTERN
deriving DecidableEq, Repr, Inhabited

export led_pattern_t (LED_NONE LED_OFF LED_SOLID LED_SLOW_BLINK LED_FAST_BLINK
  LED_LOCKOUT_PATTERN LED_ERROR_PATTERN)

/-- event_queue.h: an event record. -/
structure event_t where
  t_ms : Nat
  id : event_id_t
  src : event_source_t
  reason : event_reason_t
  arg0 : Nat
  arg1 : Nat
deriving DecidableEq, Repr, Inhabited

/-- action_queue.h: an action record. -/
structure action_t where
  t_enq_ms : Nat
  id : action_id_t
  arg0 : Nat
  arg1 : Nat
deriving DecidableEq, Repr, Inhabited

/-- config.h. -/
def CFG_EVENT_QUEUE_SIZE : Nat := 16

/-- config.h. -/
def CFG_ACTION_QUEUE_SIZE : Nat := 8

/-- timings.h. -/
def T_BOOT_TIMEOUT_MS : Nat := 8000

/-- timings.h. -/
def T_DVR_PRESS_SHORT_MS : Nat := 500

/-- timings.h. -/
def T_DVR_PRESS_LONG_MS : Nat := 3000

/-- timings.h. -/
def T_DVR_PRESS_GAP_MS : Nat := 500

/-- timings.h. -/
def T_SOLID_MS : Nat := 1500

/-- timings.h. -/
def T_SLOW_MIN_MS : Nat := 1700

/-- timings.h. -/
def T_SLOW_MAX_MS : Nat := 2600

/-- timings.h. -/
def T_FAST_MIN_MS : Nat := 120

/-- timings.h. -/
def T_FAST_MAX_MS : Nat := 320

/-- Arduino digital level LOW (on the DVR status sense line, LOW = LED on). -/
def LOW : Nat := 0

/-- Arduino digital level HIGH. -/
def HIGH : Nat := 1

/-- `(int32_t)(now - deadline) >= 0` on `uint32_t` operands
(`time_reached` in controller_fsm.cpp / drv_dvr_status.cpp). -/
def time_reached (now deadline : Nat) : Bool :=
  decide ((now + U32 - deadline) % U32 < 2147483648)

/-- `uint32_t` subtraction `a - b` for `a b < 2^32`. -/
def u32sub (a b : Nat) : Nat := (a + U32 - b) % U32

theorem time_reached_of_le {now deadline : Nat} (h : deadline ≤ now)
    (hlt : now - deadline < 2147483648) (hd : deadline < U32) :
    time_reached now deadline = true := by
  have : (now + U32 - deadline) % U32 = (now - deadline) % U32 := by
    have : now + U32 - deadline = U32 + (now - deadline) := by omega
    rw [this, Nat.add_mod_left]
  simp only [time_reached, this, decide_eq_true_eq]
  have h2 : now - deadline < U32 := by
    simp only [U32] at *; omega
  rw [Nat.mod_eq_of_lt h2]
  exact hlt

theorem time_reached_of_lt {now deadline : Nat} (h : now < deadline)
    (hgap : deadline - now ≤ 2147483648) (hd : deadline < U32) :
    time_reached now deadline = false := by
  have h1 : now + U32 - deadline = U32 - (deadline - now) := by omega
  simp only [time_reached, h1, decide_eq_false_iff_not, not_lt]
  have h2 : U32 - (deadline - now) < U32 := by simp only [U32] at *; omega
  rw [Nat.mod_eq_of_lt h2]
  simp only [U32] at *; omega

/-!
## Generic ring-buffer queue (event_queue.cpp / action_queue.cpp)

Both queue translation units are textually identical up to the element type
and the capacity constant, so the embedding is generic over both.  The buffer
array is modelled as a total function `Nat → α`; only indices `< N` are ever
read or written.
-/

/-- Ring buffer state: `head` (write index), `tail` (read index), the
saturating `dropped` counter (a `uint16_t` in the source, hence `% 2^16`), and
the storage array. -/
structure ringq_t (α : Type) (N : Nat) where
  head : Nat
  tail : Nat
  dropped : Nat
  buf : Nat → α

/-- A single array-slot write. -/
def buf_write (f : Nat → α) (i : Nat) (e : α) : Nat → α :=
  fun j => if j = i then e else f j

/-- `next_index` from event_queue.cpp: increment-and-wrap. -/
def next_index (N idx : Nat) : Nat :=
  if idx + 1 ≥ N then 0 else idx + 1

/-- `push_core`: drop-new policy — full exactly when advancing `head` would
equal `tail`; a full push increments `dropped` and returns `false`. -/
def push_core (e : α) (q : ringq_t α N) : Bool × ringq_t α N :=
  let n := next_index N q.head
  if n = q.tail then
    (false, { q with dropped := (q.dropped + 1) % 65536 })
  else
    (true, { q with buf := buf_write q.buf q.head e, head := n })

/-- `eventq_pop` / `actionq_pop`: empty iff `tail = head`. -/
def ringq_pop (q : ringq_t α N) : Option α × ringq_t α N :=
  if q.tail = q.head then (none, q)
  else (some (q.buf q.tail), { q with tail := next_index N q.tail })

/-- `eventq_count` / `actionq_count`. -/
def ringq_count (q : ringq_t α N) : Nat :=
  if q.tail ≤ q.head then q.head - q.tail else N - (q.tail - q.head)

/-- `eventq_init` / `actionq_init`. -/
def ringq_init (α : Type) [Inhabited α] (N : Nat) : ringq_t α N :=
  { head := 0, tail := 0, dropped := 0, buf := fun _ => default }

/-- Index wellformedness: capacity `> 1` (statically asserted in the source)
and in-range `uint8_t` indices. -/
def ringq_wf (q : ringq_t α N) : Prop :=
  2 ≤ N ∧ q.head < N ∧ q.tail < N

instance ringq_wf_decidable (q : ringq_t α N) : Decidable (ringq_wf q) := by
  unfold ringq_wf
  infer_instance

/-- The queue's logical content, oldest first: the ring segment from `tail`
(inclusive) to `head` (exclusive). -/
def ringq_items (q : ringq_t α N) : List α :=
  (List.range (ringq_count q)).map (fun i => q.buf ((q.tail + i) % N))

/-- Pushing a list of items one by one, collecting the returned flags. -/
def ringq_push_list : List α → ringq_t α N → List Bool × ringq_t α N
  | [], q => ([], q)
  | e :: rest, q =>
    let r := push_core e q
    let r2 := ringq_push_list rest r.2
    (r.1 :: r2.1, r2.2)

/-- Popping up to `n` items, collecting those returned. -/
def ringq_pop_n : Nat → ringq_t α N → List α × ringq_t α N
  | 0, q => ([], q)
  | n + 1, q =>
    let r := ringq_pop q
    match r.1 with
    | none => ([], r.2)
    | some x =>
      let r2 := ringq_pop_n n r.2
      (x :: r2.1, r2.2)

theorem ringq_count_le {q : ringq_t α N} (h : ringq_wf q) :
    ringq_count q ≤ N - 1 := by
  obtain ⟨hN, hh, ht⟩ := h
  simp only [ringq_count]
  split <;> omega

theorem next_index_lt {N t : Nat} (hN : 2 ≤ N) (ht : t < N) :
    next_index N t < N := by
  simp only [next_index]; split <;> omega

theorem next_index_eq_mod {N t : Nat} (ht : t < N) :
    next_index N t = (t + 1) % N := by
  simp only [next_index]
  split
  · have h1 : t + 1 = N := by omega
    rw [h1, Nat.mod_self]
  · rw [Nat.mod_eq_of_lt (by omega)]

theorem mod_two_cases {a N : Nat} (hN : 0 < N) (h : a < 2 * N) :
    a % N = if a < N then a else a - N := by
  split
  · exact Nat.mod_eq_of_lt (by omega)
  · have h1 : a = N + (a - N) := by omega
    conv_lhs => rw [h1]
    rw [Nat.add_mod_left, Nat.mod_eq_of_lt (by omega)]

theorem count_formula {N h t : Nat} (hN : 2 ≤ N) (hh : h < N) (ht : t < N) :
    (if t ≤ h then h - t else N - (t - h)) = (h + N - t) % N := by
  have h2 : h + N - t < 2 * N := by omega
  rw [mod_two_cases (by omega) h2]
  split <;> split <;> omega

theorem ringq_count_eq {q : ringq_t α N} (h : ringq_wf q) :
    ringq_count q = (q.head + N - q.tail) % N := by
  obtain ⟨hN, hh, ht⟩ := h
  simp only [ringq_count]
  exact count_formula hN hh ht

theorem ringq_full_iff {q : ringq_t α N} (h : ringq_wf q) :
    next_index N q.head = q.tail ↔ ringq_count q = N - 1 := by
  obtain ⟨hN, hh, ht⟩ := h
  by_cases hb : q.head + 1 ≥ N
  · simp only [next_index, if_pos hb, ringq_count]
    constructor
    · intro he; split <;> omega
    · intro hc; split at hc <;> omega
  · simp only [next_index, if_neg hb, ringq_count]
    constructor
    · intro he; split <;> omega
    · intro hc; split at hc <;> omega

theorem push_core_full {q : ringq_t α N} (h : ringq_wf q)
    (hc : ringq_count q = N - 1) (e : α) :
    push_core e q = (false, { q with dropped := (q.dropped + 1) % 65536 }) := by
  have hfull := (ringq_full_iff h).mpr hc
  simp [push_core, hfull]

theorem ringq_items_dropped (q : ringq_t α N) (d : Nat) :
    ringq_items ({ q with dropped := d } : ringq_t α N) = ringq_items q := rfl

theorem count_succ_lemma {N h t : Nat} (hN : 2 ≤ N) (hh : h < N) (ht : t < N)
    (hne : next_index N h ≠ t) :
    (if t ≤ next_index N h then next_index N h - t else N - (t - next_index N h)) =
      (if t ≤ h then h - t else N - (t - h)) + 1 := by
  by_cases hb : h + 1 ≥ N
  · simp only [next_index, if_pos hb] at hne ⊢
    split <;> split <;> omega
  · simp only [next_index, if_neg hb] at hne ⊢
    split <;> split <;> omega

theorem push_core_ok {q : ringq_t α N} (h : ringq_wf q)
    (hc : ringq_count q < N - 1) (e : α) :
    (push_core e q).1 = true ∧
    (push_core e q).2 = { q with buf := buf_write q.buf q.head e, head := next_index N q.head } ∧
    ringq_wf (push_core e q).2 ∧
    ringq_count (push_core e q).2 = ringq_count q + 1 ∧
    ringq_items (push_core e q).2 = ringq_items q ++ [e] := by
  obtain ⟨hN, hh, ht⟩ := h
  have hnotfull : ¬ next_index N q.head = q.tail := by
    intro hfull
    rw [ringq_full_iff ⟨hN, hh, ht⟩] at hfull
    omega
  have hres : push_core e q = (true, { q with buf := buf_write q.buf q.head e, head := next_index N q.head }) := by
    simp [push_core, hnotfull]
  have hcq : ringq_count ({ q with buf := buf_write q.buf q.head e, head := next_index N q.head } : ringq_t α N) = ringq_count q + 1 := by
    simp only [ringq_count]
    exact count_succ_lemma hN hh ht hnotfull
  refine ⟨by rw [hres], by rw [hres], ?_, by rw [hres]; exact hcq, ?_⟩
  · rw [hres]
    exact ⟨hN, next_index_lt hN hh, ht⟩
  · rw [hres]
    simp only [ringq_items, hcq]
    rw [List.range_succ]
    simp only [List.map_append, List.map_cons, List.map_nil]
    congr 1
    · apply List.map_congr_left
      intro i hi
      rw [List.mem_range] at hi
      have hlt : q.tail + i < 2 * N := by
        simp only [ringq_count] at hi
        split at hi <;> omega
      have hmod := mod_two_cases (a := q.tail + i) (N := N) (by omega) hlt
      have hne2 : (q.tail + i) % N ≠ q.head := by
        rw [hmod]
        simp only [ringq_count] at hi
        split at hi <;> split <;> omega
      simp only [buf_write, if_neg hne2]
    · have hlt : q.tail + ringq_count q < 2 * N := by
        simp only [ringq_count]; split <;> omega
      have heq : (q.tail + ringq_count q) % N = q.head := by
        rw [mod_two_cases (by omega) hlt]
        simp only [ringq_count]
        split <;> split <;> omega
      simp [buf_write, heq]

theorem count_pred_lemma {N h t : Nat} (hN : 2 ≤ N) (hh : h < N) (ht : t < N)
    (hne : t ≠ h) :
    (if next_index N t ≤ h then h - next_index N t else N - (next_index N t - h)) =
      (if t ≤ h then h - t else N - (t - h)) - 1 := by
  by_cases hb : t + 1 ≥ N
  · simp only [next_index, if_pos hb]
    split <;> split <;> omega
  · simp only [next_index, if_neg hb]
    split <;> split <;> omega

theorem ringq_pop_cons {q : ringq_t α N} (h : ringq_wf q)
    (hc : 0 < ringq_count q) :
    ringq_pop q = (some (q.buf q.tail), { q with tail := next_index N q.tail }) ∧
    ringq_wf (ringq_pop q).2 ∧
    ringq_count (ringq_pop q).2 = ringq_count q - 1 ∧
    ringq_items q = q.buf q.tail :: ringq_items (ringq_pop q).2 := by
  obtain ⟨hN, hh, ht⟩ := h
  have hne : q.tail ≠ q.head := by
    intro he
    simp [ringq_count, he] at hc
  have hres : ringq_pop q = (some (q.buf q.tail), { q with tail := next_index N q.tail }) := by
    simp [ringq_pop, hne]
  have hcq : ringq_count ({ q with tail := next_index N q.tail } : ringq_t α N) = ringq_count q - 1 := by
    simp only [ringq_count]
    exact count_pred_lemma hN hh ht hne
  refine ⟨hres, ?_, by rw [hres]; exact hcq, ?_⟩
  · rw [hres]
    exact ⟨hN, hh, next_index_lt hN ht⟩
  · rw [hres]
    obtain ⟨c, hcc⟩ : ∃ c, ringq_count q = c + 1 :=
      ⟨ringq_count q - 1, by omega⟩
    simp only [ringq_items, hcq, hcc, Nat.add_sub_cancel]
    rw [List.range_succ_eq_map]
    simp only [List.map_cons, List.map_map]
    congr 1
    · rw [Nat.add_zero, Nat.mod_eq_of_lt ht]
    · apply List.map_congr_left
      intro i hi
      simp only [Function.comp_apply]
      congr 1
      rw [next_index_eq_mod ht, Nat.mod_add_mod]
      congr 1
      omega

theorem ringq_pop_empty {q : ringq_t α N} (hc : q.tail = q.head) :
    ringq_pop q = (none, q) := by
  simp [ringq_pop, hc]

theorem ringq_count_zero_iff {q : ringq_t α N} (h : ringq_wf q) :
    ringq_count q = 0 ↔ q.tail = q.head := by
  obtain ⟨hN, hh, ht⟩ := h
  simp only [ringq_count]
  split <;> omega

theorem ringq_init_wf (α : Type) [Inhabited α] {N : Nat} (hN : 2 ≤ N) :
    ringq_wf (ringq_init α N) := by
  refine ⟨hN, ?_, ?_⟩ <;> simp [ringq_init] <;> omega

theorem ringq_init_items (α : Type) [Inhabited α] (N : Nat) :
    ringq_items (ringq_init α N) = [] := by
  simp [ringq_items, ringq_count, ringq_init]

theorem ringq_push_list_spec {N : Nat} :
    ∀ (l : List α) (q : ringq_t α N), ringq_wf q →
    ringq_count q + l.length ≤ N - 1 →
    (ringq_push_list l q).1 = List.replicate l.length true ∧
    ringq_wf (ringq_push_list l q).2 ∧
    ringq_count (ringq_push_list l q).2 = ringq_count q + l.length ∧
    ringq_items (ringq_push_list l q).2 = ringq_items q ++ l ∧
    (ringq_push_list l q).2.dropped = q.dropped ∧
    (ringq_push_list l q).2.tail = q.tail := by
  intro l
  induction l with
  | nil =>
    intro q hwf _
    simp [ringq_push_list, hwf]
  | cons e rest ih =>
    intro q hwf hlen
    obtain ⟨h1, h2, h3, h4, h5⟩ :=
      push_core_ok hwf (by simp at hlen; omega) e
    obtain ⟨g1, g2, g3, g4, g5, g6⟩ :=
      ih (push_core e q).2 h3 (by simp at hlen ⊢; omega)
    simp only [ringq_push_list, List.length_cons]
    refine ⟨?_, g2, ?_, ?_, ?_, ?_⟩
    · simp [h1, g1, List.replicate_succ]
    · simp only [g3, h4]; omega
    · simp only [g4, h5, List.append_assoc, List.cons_append,
        List.nil_append]
    · rw [g5, h2]
    · rw [g6, h2]

theorem ringq_pop_n_all {N : Nat} :
    ∀ (n : Nat) (q : ringq_t α N), ringq_wf q → ringq_count q = n →
    (ringq_pop_n n q).1 = ringq_items q ∧
    ringq_wf (ringq_pop_n n q).2 ∧
    ringq_count (ringq_pop_n n q).2 = 0 := by
  intro n
  induction n with
  | zero =>
    intro q hwf hc
    have : ringq_items q = [] := by
      simp [ringq_items, hc]
    simp [ringq_pop_n, this, hwf, hc]
  | succ m ih =>
    intro q hwf hc
    obtain ⟨p1, p2, p3, p4⟩ := ringq_pop_cons hwf (by omega)
    obtain ⟨g1, g2, g3⟩ := ih (ringq_pop q).2 p2 (by omega)
    simp only [ringq_pop_n]
    rw [p1]
    simp only
    have hq2 : ({ q with tail := next_index N q.tail } : ringq_t α N)
        = (ringq_pop q).2 := by rw [p1]
    rw [hq2]
    exact ⟨by rw [g1, p4], g2, g3⟩

theorem ringq_push_list_append (a b : List α) (q : ringq_t α N) :
    ringq_push_list (a ++ b) q =
      ((ringq_push_list a q).1 ++ (ringq_push_list b (ringq_push_list a q).2).1,
       (ringq_push_list b (ringq_push_list a q).2).2) := by
  induction a generalizing q with
  | nil => simp [ringq_push_list]
  | cons x xs ih => simp [ringq_push_list, ih]

/-!
## Claim theorems: queue cluster (C4, C5, C10)
-/

/-- A throwaway event payload used to exercise the queues at concrete inputs. -/
def mk_test_event (i : Nat) : event_t :=
  { t_ms := i, id := EV_NONE, src := SRC_NONE, reason := EVR_NONE, arg0 := i, arg1 := 0 }

/-- C10: the ring buffer declares itself full when advancing the head index
would equal the tail index, so the event queue (capacity constant 16) holds at
most 15 items and the action queue (capacity constant 8) at most 7; a push onto
a queue already holding `N - 1` items returns `false`, increments the dropped
counter, and leaves the stored items unchanged. -/
theorem C10_queue_capacity_invariant :
    CFG_EVENT_QUEUE_SIZE - 1 = 15 ∧ CFG_ACTION_QUEUE_SIZE - 1 = 7 ∧
    (∀ (α : Type) (N : Nat) (q : ringq_t α N), ringq_wf q →
      ringq_count q ≤ N - 1) ∧
    (∀ (α : Type) (N : Nat) (q : ringq_t α N) (e : α), ringq_wf q →
      ringq_count q = N - 1 →
      (push_core e q).1 = false ∧
      (push_core e q).2.dropped = (q.dropped + 1) % 65536 ∧
      ringq_items (push_core e q).2 = ringq_items q) := by
  refine ⟨rfl, rfl, fun α N q hwf => ringq_count_le hwf, ?_⟩
  intro α N q e hwf hfull
  have h := push_core_full hwf hfull e
  refine ⟨by rw [h], by rw [h], ?_⟩
  rw [h]
  exact ringq_items_dropped q _

/-- A concretely full event queue (15 pushes onto the empty 16-slot ring). -/
def c10_full_queue : ringq_t event_t 16 :=
  (ringq_push_list ((List.range 15).map mk_test_event) (ringq_init event_t 16)).2

theorem C10_witness :
    (push_core (mk_test_event 15) c10_full_queue).1 = false ∧
    (push_core (mk_test_event 15) c10_full_queue).2.dropped
      = (c10_full_queue.dropped + 1) % 65536 ∧
    ringq_items (push_core (mk_test_event 15) c10_full_queue).2
      = ringq_items c10_full_queue := by
  exact C10_queue_capacity_invariant.2.2.2 event_t 16 c10_full_queue
    (mk_test_event 15) (by decide) (by decide)

/-- The full spec-capacity batch: 16 events, one per slot-count of the event
queue's declared size. -/
def c5_events : List event_t := (List.range CFG_EVENT_QUEUE_SIZE).map mk_test_event

/-- C5 fails as stated: a sequence of 16 pushes does not exceed the claimed
capacity 16 of the event queue, yet the 16th push is rejected (the ring keeps
only 15 items). -/
theorem C5_counterexample :
    c5_events.length ≤ CFG_EVENT_QUEUE_SIZE ∧
    false ∈ (ringq_push_list c5_events (ringq_init event_t CFG_EVENT_QUEUE_SIZE)).1 ∧
    (ringq_push_list c5_events (ringq_init event_t CFG_EVENT_QUEUE_SIZE)).1.getLast?
      = some false := by
  decide

/-- C5 (amended): for every sequence of pushes onto an initially empty queue
whose length does not exceed the queue's usable capacity (capacity constant
minus one: 15 for the event queue, 7 for the action queue), all pushes succeed
and subsequent pops return exactly those items in push order, unchanged. -/
theorem C5_queue_fifo :
    ∀ (α : Type) [Inhabited α] (N : Nat), 2 ≤ N → ∀ (l : List α),
    l.length ≤ N - 1 →
    (ringq_push_list l (ringq_init α N)).1 = List.replicate l.length true ∧
    (ringq_pop_n l.length (ringq_push_list l (ringq_init α N)).2).1 = l := by
  intro α _ N hN l hl
  have hwf := ringq_init_wf α (N := N) hN
  have hcount0 : ringq_count (ringq_init α N) = 0 := by
    simp [ringq_count, ringq_init]
  obtain ⟨g1, g2, g3, g4, g5, g6⟩ :=
    ringq_push_list_spec l (ringq_init α N) hwf (by rw [hcount0]; omega)
  refine ⟨g1, ?_⟩
  have hitems : ringq_items (ringq_push_list l (ringq_init α N)).2 = l := by
    rw [g4, ringq_init_items, List.nil_append]
  obtain ⟨p1, p2, p3⟩ := ringq_pop_n_all l.length _ g2 (by rw [g3, hcount0]; omega)
  rw [p1, hitems]

/-- A batch of 15 events for the concrete FIFO witness. -/
def c5_events15 : List event_t := (List.range 15).map mk_test_event

theorem C5_witness :
    c5_events15.length ≤ 16 - 1 ∧
    (ringq_push_list c5_events15 (ringq_init event_t 16)).1
      = List.replicate c5_events15.length true ∧
    (ringq_pop_n c5_events15.length
      (ringq_push_list c5_events15 (ringq_init event_t 16)).2).1 = c5_events15 :=
  ⟨by decide, C5_queue_fifo event_t 16 (by norm_num) c5_events15 (by decide)⟩


/-- 17 events: the claimed capacity (16) plus one. -/
def c4_events : List event_t :=
  (List.range (CFG_EVENT_QUEUE_SIZE + 1)).map mk_test_event

/-- C4 fails as stated (with "capacity" = the declared queue size 16, as fixed
by the sources the claim cites): 17 pushes onto the empty event queue leave
only 15 items retrievable (not 16) and bump the dropped counter by 2 (not 1),
because the ring is already full after 15 successful pushes. -/
theorem C4_counterexample :
    c4_events.length = CFG_EVENT_QUEUE_SIZE + 1 ∧
    (ringq_push_list c4_events (ringq_init event_t CFG_EVENT_QUEUE_SIZE)).2.dropped = 2 ∧
    (2 : Nat) ≠ 1 ∧
    (ringq_pop_n (CFG_EVENT_QUEUE_SIZE + 1)
      (ringq_push_list c4_events (ringq_init event_t CFG_EVENT_QUEUE_SIZE)).2).1.length = 15 ∧
    (15 : Nat) ≠ CFG_EVENT_QUEUE_SIZE := by
  decide

/-- C4 (amended): with "capacity" read as the ring's usable capacity
`N - 1` (15 events / 7 actions), pushing `capacity + 1` items onto an
initially empty queue leaves exactly the oldest `capacity` items retrievable
in order, rejects the newest item, and increments the dropped counter by
exactly 1 — the new item is dropped, never the oldest. -/
theorem C4_queue_drop_policy :
    ∀ (α : Type) [Inhabited α] (N : Nat), 2 ≤ N → ∀ (l : List α) (e : α),
    l.length = N - 1 →
    (ringq_push_list (l ++ [e]) (ringq_init α N)).1
      = List.replicate (N - 1) true ++ [false] ∧
    (ringq_push_list (l ++ [e]) (ringq_init α N)).2.dropped = 1 ∧
    (ringq_pop_n (N - 1) (ringq_push_list (l ++ [e]) (ringq_init α N)).2).1 = l := by
  intro α _ N hN l e hl
  have hwf := ringq_init_wf α (N := N) hN
  have hcount0 : ringq_count (ringq_init α N) = 0 := by
    simp [ringq_count, ringq_init]
  obtain ⟨g1, g2, g3, g4, g5, g6⟩ :=
    ringq_push_list_spec l (ringq_init α N) hwf (by rw [hcount0]; omega)
  have hga : ringq_count (ringq_push_list l (ringq_init α N)).2 = N - 1 := by
    rw [g3, hcount0, hl]
    omega
  have hfull := push_core_full g2 hga e
  have hd0 : (ringq_push_list l (ringq_init α N)).2.dropped = 0 := by
    rw [g5]; rfl
  rw [ringq_push_list_append]
  have hsingle : ∀ (q : ringq_t α N),
      ringq_push_list [e] q = ([(push_core e q).1], (push_core e q).2) := by
    intro q; simp [ringq_push_list]
  rw [hsingle, hfull]
  have hitems : ringq_items (ringq_push_list l (ringq_init α N)).2 = l := by
    rw [g4, ringq_init_items, List.nil_append]
  have hwf2 : ringq_wf ({ (ringq_push_list l (ringq_init α N)).2 with
      dropped := ((ringq_push_list l (ringq_init α N)).2.dropped + 1) % 65536 } : ringq_t α N) :=
    ⟨hN, g2.2.1, g2.2.2⟩
  have hc2 : ringq_count ({ (ringq_push_list l (ringq_init α N)).2 with
      dropped := ((ringq_push_list l (ringq_init α N)).2.dropped + 1) % 65536 } : ringq_t α N) = N - 1 := hga
  obtain ⟨p1, p2, p3⟩ := ringq_pop_n_all (N - 1) _ hwf2 hc2
  refine ⟨?_, ?_, ?_⟩
  · rw [g1, hl]
  · simp only [hd0]
  · rw [p1, ringq_items_dropped, hitems]

/-- A batch of 15 events for the concrete drop-policy witness. -/
def c4_batch : List event_t := (List.range 15).map mk_test_event

theorem C4_witness :
    c4_batch.length = 16 - 1 ∧
    (ringq_push_list (c4_batch ++ [mk_test_event 15]) (ringq_init event_t 16)).1
      = List.replicate (16 - 1) true ++ [false] ∧
    (ringq_push_list (c4_batch ++ [mk_test_event 15]) (ringq_init event_t 16)).2.dropped = 1 ∧
    (ringq_pop_n (16 - 1)
      (ringq_push_list (c4_batch ++ [mk_test_event 15]) (ringq_init event_t 16)).2).1
      = c4_batch.take (16 - 1) := by
  refine ⟨by decide, ?_⟩
  have h := C4_queue_drop_policy event_t 16 (by norm_num) c4_batch
    (mk_test_event 15) (by decide)
  exact ⟨h.1, h.2.1, by rw [h.2.2]; decide⟩

/-!
## Status interpreter (drv_dvr_status.cpp)

The interpreter keeps the last observed LED pattern, a recording latch, and
the persistent-fast-blink (SD card) discriminator.  `on_pattern_transition`
is the faithful translation of the function of the same name; the three
numbered blocks of the C function become the three block functions below.
Emitted events are returned as the list passed to `eventq_push`, in program
order.
-/

/-- Numeric value of an `error_code_t` (the C enum encoding). -/
def error_code_t.toNat : error_code_t → Nat
  | ERR_NONE => 0
  | ERR_DVR_BOOT_TIMEOUT => 1
  | ERR_DVR_ABNORMAL_BOOT => 2
  | ERR_DVR_CARD_ERROR => 3
  | ERR_BAT_CRITICAL => 4
  | ERR_BAT_LOCKOUT => 5
  | ERR_ILLEGAL_STATE => 6
  | ERR_UNEXPECTED_EVENT => 7
  | ERR_UNEXPECTED_LED_PATTERN => 8

/-- Numeric value of a `dvr_led_pattern_t` (the C enum encoding). -/
def dvr_led_pattern_t.toNat : dvr_led_pattern_t → Nat
  | DVR_LED_UNKNOWN => 0
  | DVR_LED_OFF => 1
  | DVR_LED_SOLID => 2
  | DVR_LED_SLOW_BLINK => 3
  | DVR_LED_FAST_BLINK => 4
  | DVR_LED_ABNORMAL_BOOT => 5

/-- Internal state of drv_dvr_status.cpp. -/
structure drv_dvr_status_t where
  last_pat : dvr_led_pattern_t
  fast_persist_armed : Bool
  fast_deadline_ms : Nat
  sd_error_emitted : Bool
  recording : Bool
deriving DecidableEq, Repr, Inhabited

/-- `emit_event` helper: builds the event record pushed onto the event queue
(`src` is `SRC_FSM` in the source, see its comment). -/
def emit_event (now_ms : Nat) (id : event_id_t) (reason : event_reason_t)
    (arg0 arg1 : Nat) : event_t :=
  { t_ms := now_ms, id := id, src := SRC_FSM, reason := reason,
    arg0 := arg0, arg1 := arg1 }

/-- `cancels_fast_persist`. -/
def cancels_fast_persist : dvr_led_pattern_t → Bool
  | DVR_LED_OFF => true
  | DVR_LED_SOLID => true
  | DVR_LED_UNKNOWN => true
  | _ => false

/-- `arm_fast_persist`: deadline is `now + T_BOOT_TIMEOUT_MS` in `uint32_t`
arithmetic; arming resets the one-shot latch. -/
def arm_fast_persist (now_ms : Nat) (st : drv_dvr_status_t) : drv_dvr_status_t :=
  { st with fast_persist_armed := true,
            fast_deadline_ms := (now_ms + T_BOOT_TIMEOUT_MS) % U32,
            sd_error_emitted := false }

/-- `disarm_fast_persist`. -/
def disarm_fast_persist (st : drv_dvr_status_t) : drv_dvr_status_t :=
  { st with fast_persist_armed := false, fast_deadline_ms := 0,
            sd_error_emitted := false }

/-- Block 1 of `on_pattern_transition`: the recording latch.  Start on
entering `SLOW_BLINK`; stop only on leaving `SLOW_BLINK` into `SOLID` or
`OFF`. -/
def record_latch_block (now_ms : Nat) (prev pat : dvr_led_pattern_t)
    (st : drv_dvr_status_t) : drv_dvr_status_t × List event_t :=
  if pat = DVR_LED_SLOW_BLINK then
    if st.recording = false then
      ({ st with recording := true },
       [emit_event now_ms EV_DVR_RECORD_STARTED EVR_CLASSIFIER_STABLE 0 0])
    else (st, [])
  else
    if st.recording = true ∧ prev = DVR_LED_SLOW_BLINK then
      if pat = DVR_LED_SOLID ∨ pat = DVR_LED_OFF then
        ({ st with recording := false },
         [emit_event now_ms EV_DVR_RECORD_STOPPED EVR_CLASSIFIER_STABLE 0 0])
      else (st, [])
    else (st, [])

/-- Block 2 of `on_pattern_transition`: power-state hints; `OFF` and `SOLID`
also cancel SD suspicion. -/
def power_hint_block (now_ms : Nat) (pat : dvr_led_pattern_t)
    (st : drv_dvr_status_t) : drv_dvr_status_t × List event_t :=
  if pat = DVR_LED_OFF then
    (disarm_fast_persist st,
     [emit_event now_ms EV_DVR_POWERED_OFF EVR_CLASSIFIER_STABLE 0 0])
  else if pat = DVR_LED_SOLID then
    (disarm_fast_persist st,
     [emit_event now_ms EV_DVR_POWERED_ON_IDLE EVR_CLASSIFIER_STABLE 0 0])
  else (st, [])

/-- Block 3 of `on_pattern_transition`: arm on entering `FAST_BLINK`, disarm
on everything else (the source's redundant final `else` also disarms). -/
def sd_discriminator_block (now_ms : Nat) (pat : dvr_led_pattern_t)
    (st : drv_dvr_status_t) : drv_dvr_status_t :=
  if pat = DVR_LED_FAST_BLINK then
    if st.fast_persist_armed = false then arm_fast_persist now_ms st else st
  else if cancels_fast_persist pat then disarm_fast_persist st
  else disarm_fast_persist st

/-- `on_pattern_transition`: run on a `prev → pat` change (the caller has
already written `pat` into `last_pat`, matching the C code). -/
def on_pattern_transition (now_ms : Nat) (prev pat : dvr_led_pattern_t)
    (st : drv_dvr_status_t) : drv_dvr_status_t × List event_t :=
  let r1 := record_latch_block now_ms prev pat st
  let r2 := power_hint_block now_ms pat r1.1
  (sd_discriminator_block now_ms pat r2.1, r1.2 ++ r2.2)

/-- One observed pattern sample: transition detection as performed in
`poll_led_pattern_events` (a change of the observed pattern updates
`last_pat` and runs `on_pattern_transition`). -/
def observe_pattern (now_ms : Nat) (pat : dvr_led_pattern_t)
    (st : drv_dvr_status_t) : drv_dvr_status_t × List event_t :=
  if pat = st.last_pat then (st, [])
  else on_pattern_transition now_ms st.last_pat pat { st with last_pat := pat }

/-- The SD-card-error discriminator at the end of `drv_dvr_status_poll`:
one-shot `EV_DVR_ERROR(ERR_DVR_CARD_ERROR)` when the armed deadline has been
reached. -/
def sd_fault_check (now_ms : Nat) (st : drv_dvr_status_t) :
    drv_dvr_status_t × List event_t :=
  if st.fast_persist_armed = true ∧ st.sd_error_emitted = false ∧
      time_reached now_ms st.fast_deadline_ms = true then
    ({ st with sd_error_emitted := true },
     [emit_event now_ms EV_DVR_ERROR EVR_TIMEOUT
        (error_code_t.toNat ERR_DVR_CARD_ERROR)
        (dvr_led_pattern_t.toNat st.last_pat)])
  else (st, [])

/-- One poll of `drv_dvr_status_poll` observing pattern `pat` (transition
handling followed by the fault discriminator). -/
def drv_dvr_status_step (now_ms : Nat) (pat : dvr_led_pattern_t)
    (st : drv_dvr_status_t) : drv_dvr_status_t × List event_t :=
  ((sd_fault_check now_ms (observe_pattern now_ms pat st).1).1,
   (observe_pattern now_ms pat st).2 ++
     (sd_fault_check now_ms (observe_pattern now_ms pat st).1).2)

/-- `drv_dvr_status_init`. -/
def drv_dvr_status_init : drv_dvr_status_t :=
  { last_pat := DVR_LED_UNKNOWN, fast_persist_armed := false,
    fast_deadline_ms := 0, sd_error_emitted := false, recording := false }

/-- Run the interpreter over a list of timestamped pattern observations,
accumulating all emitted events in order. -/
def drv_dvr_status_run :
    drv_dvr_status_t → List (Nat × dvr_led_pattern_t) →
      drv_dvr_status_t × List event_t
  | st, [] => (st, [])
  | st, (now, pat) :: rest =>
    let r := drv_dvr_status_step now pat st
    let r2 := drv_dvr_status_run r.1 rest
    (r2.1, r.2 ++ r2.2)

/-- Number of `EV_DVR_ERROR` events in an emission list. -/
def err_count (evs : List event_t) : Nat :=
  (evs.filter (fun e => decide (e.id = EV_DVR_ERROR))).length

theorem sd_fault_check_ids (now : Nat) (st : drv_dvr_status_t) :
    ∀ e ∈ (sd_fault_check now st).2, e.id = EV_DVR_ERROR := by
  unfold sd_fault_check
  split <;> simp [emit_event]

theorem power_hint_ids (now : Nat) (pat : dvr_led_pattern_t)
    (st : drv_dvr_status_t) :
    ∀ e ∈ (power_hint_block now pat st).2,
      e.id = EV_DVR_POWERED_OFF ∨ e.id = EV_DVR_POWERED_ON_IDLE := by
  unfold power_hint_block
  split_ifs <;> simp [emit_event]

theorem stopped_mem_latch_iff (now : Nat) (prev pat : dvr_led_pattern_t)
    (st : drv_dvr_status_t) :
    EV_DVR_RECORD_STOPPED ∈ (record_latch_block now prev pat st).2.map event_t.id
      ↔ (st.recording = true ∧ prev = DVR_LED_SLOW_BLINK ∧
         (pat = DVR_LED_SOLID ∨ pat = DVR_LED_OFF)) := by
  unfold record_latch_block
  split_ifs with h1 h2 h3 h4 <;> simp_all [emit_event]

theorem record_latch_fields (now : Nat) (prev pat : dvr_led_pattern_t)
    (st : drv_dvr_status_t) :
    (record_latch_block now prev pat st).1.last_pat = st.last_pat ∧
    (record_latch_block now prev pat st).1.fast_persist_armed = st.fast_persist_armed ∧
    (record_latch_block now prev pat st).1.fast_deadline_ms = st.fast_deadline_ms ∧
    (record_latch_block now prev pat st).1.sd_error_emitted = st.sd_error_emitted := by
  unfold record_latch_block
  split_ifs <;> simp

theorem power_hint_fields (now : Nat) (pat : dvr_led_pattern_t)
    (st : drv_dvr_status_t) :
    (power_hint_block now pat st).1.last_pat = st.last_pat ∧
    (power_hint_block now pat st).1.recording = st.recording := by
  unfold power_hint_block disarm_fast_persist
  split_ifs <;> simp

theorem sd_discriminator_fields (now : Nat) (pat : dvr_led_pattern_t)
    (st : drv_dvr_status_t) :
    (sd_discriminator_block now pat st).last_pat = st.last_pat ∧
    (sd_discriminator_block now pat st).recording = st.recording := by
  unfold sd_discriminator_block arm_fast_persist disarm_fast_persist
  split_ifs <;> simp

theorem opt_last_pat (now : Nat) (prev pat : dvr_led_pattern_t)
    (st : drv_dvr_status_t) :
    (on_pattern_transition now prev pat st).1.last_pat = st.last_pat := by
  unfold on_pattern_transition
  rw [(sd_discriminator_fields now pat _).1, (power_hint_fields now pat _).1,
    (record_latch_fields now prev pat st).1]

theorem opt_recording_slow (now : Nat) (prev : dvr_led_pattern_t)
    (st : drv_dvr_status_t) :
    (on_pattern_transition now prev DVR_LED_SLOW_BLINK st).1.recording = true := by
  unfold on_pattern_transition
  rw [(sd_discriminator_fields now _ _).2, (power_hint_fields now _ _).2]
  unfold record_latch_block
  split_ifs with h1 h2 <;> simp_all

theorem sd_fault_check_fields (now : Nat) (st : drv_dvr_status_t) :
    (sd_fault_check now st).1.last_pat = st.last_pat ∧
    (sd_fault_check now st).1.recording = st.recording := by
  unfold sd_fault_check
  split <;> simp

/-- The recording-latch invariant: whenever the interpreter last saw
`SLOW_BLINK`, its recording latch is set. -/
def dvr_recording_inv (st : drv_dvr_status_t) : Prop :=
  st.last_pat = DVR_LED_SLOW_BLINK → st.recording = true

theorem step_preserves_inv (now : Nat) (pat : dvr_led_pattern_t)
    (st : drv_dvr_status_t) (h : dvr_recording_inv st) :
    dvr_recording_inv (drv_dvr_status_step now pat st).1 := by
  unfold drv_dvr_status_step
  intro hlast
  rw [(sd_fault_check_fields now _).2]
  rw [(sd_fault_check_fields now _).1] at hlast
  unfold observe_pattern at hlast ⊢
  by_cases hsame : pat = st.last_pat
  · rw [if_pos hsame] at hlast ⊢
    exact h hlast
  · rw [if_neg hsame] at hlast ⊢
    rw [opt_last_pat] at hlast
    simp only at hlast
    subst hlast
    exact opt_recording_slow now _ _

theorem run_preserves_inv :
    ∀ (l : List (Nat × dvr_led_pattern_t)) (st : drv_dvr_status_t),
    dvr_recording_inv st → dvr_recording_inv (drv_dvr_status_run st l).1 := by
  intro l
  induction l with
  | nil => intro st h; exact h
  | cons p rest ih =>
    intro st h
    exact ih _ (step_preserves_inv p.1 p.2 st h)

theorem stopped_mem_step_iff (now : Nat) (pat : dvr_led_pattern_t)
    (st : drv_dvr_status_t) (hinv : dvr_recording_inv st) :
    EV_DVR_RECORD_STOPPED ∈ (drv_dvr_status_step now pat st).2.map event_t.id
      ↔ (st.last_pat = DVR_LED_SLOW_BLINK ∧
         (pat = DVR_LED_SOLID ∨ pat = DVR_LED_OFF)) := by
  unfold drv_dvr_status_step
  simp only [List.map_append, List.mem_append]
  have hfault : EV_DVR_RECORD_STOPPED ∉
      (sd_fault_check now (observe_pattern now pat st).1).2.map event_t.id := by
    intro hmem
    rw [List.mem_map] at hmem
    obtain ⟨e, he, hid⟩ := hmem
    have := sd_fault_check_ids now _ e he
    rw [this] at hid
    exact absurd hid (by decide)
  constructor
  · intro hmem
    rcases hmem with hmem | hmem
    · unfold observe_pattern at hmem
      by_cases hsame : pat = st.last_pat
      · rw [if_pos hsame] at hmem
        simp at hmem
      · rw [if_neg hsame] at hmem
        unfold on_pattern_transition at hmem
        simp only [List.map_append, List.mem_append] at hmem
        rcases hmem with hmem | hmem
        · rw [stopped_mem_latch_iff] at hmem
          exact ⟨hmem.2.1, hmem.2.2⟩
        · exfalso
          rw [List.mem_map] at hmem
          obtain ⟨e, he, hid⟩ := hmem
          rcases power_hint_ids now pat _ e he with h1 | h1 <;>
            (rw [h1] at hid; exact absurd hid (by decide))
    · exact absurd hmem hfault
  · intro ⟨hprev, hpat⟩
    left
    unfold observe_pattern
    have hsame : ¬ pat = st.last_pat := by
      rw [hprev]
      rcases hpat with h | h <;> (rw [h]; decide)
    rw [if_neg hsame]
    unfold on_pattern_transition
    simp only [List.map_append, List.mem_append]
    left
    rw [stopped_mem_latch_iff]
    exact ⟨hinv hprev, hprev, hpat⟩

/-- C2: `RecordStopped` is emitted at a poll step if and only if the observed
pattern transitions directly from `SlowBlink` to `Solid` or to `Off`; in
particular `SlowBlink → FastBlink` and `SlowBlink → Unknown` transitions never
emit it.  Stated for every reachable interpreter state (any observation
history `pre` from the initial state) and every next observation. -/
theorem C2_interpreter_stop_confirmation :
    ∀ (pre : List (Nat × dvr_led_pattern_t)) (now : Nat)
      (pat : dvr_led_pattern_t),
    EV_DVR_RECORD_STOPPED ∈
        (drv_dvr_status_step now pat
          (drv_dvr_status_run drv_dvr_status_init pre).1).2.map event_t.id
      ↔ ((drv_dvr_status_run drv_dvr_status_init pre).1.last_pat
            = DVR_LED_SLOW_BLINK ∧
         (pat = DVR_LED_SOLID ∨ pat = DVR_LED_OFF)) := by
  intro pre now pat
  apply stopped_mem_step_iff
  apply run_preserves_inv
  intro h
  exact absurd h (by decide)

theorem err_count_append (a b : List event_t) :
    err_count (a ++ b) = err_count a + err_count b := by
  simp [err_count, List.filter_append]

theorem step_fast_latched {st : drv_dvr_status_t}
    (hl : st.last_pat = DVR_LED_FAST_BLINK)
    (he : st.sd_error_emitted = true) (now : Nat) :
    drv_dvr_status_step now DVR_LED_FAST_BLINK st = (st, []) := by
  unfold drv_dvr_status_step observe_pattern sd_fault_check
  simp [hl, he]

theorem step_fast_armed_quiet {st : drv_dvr_status_t}
    (hl : st.last_pat = DVR_LED_FAST_BLINK)
    (ht : time_reached now st.fast_deadline_ms = false) :
    drv_dvr_status_step now DVR_LED_FAST_BLINK st = (st, []) := by
  unfold drv_dvr_status_step observe_pattern sd_fault_check
  simp [hl, ht]

theorem step_fast_armed_reached {st : drv_dvr_status_t}
    (hl : st.last_pat = DVR_LED_FAST_BLINK)
    (ha : st.fast_persist_armed = true) (he : st.sd_error_emitted = false)
    (ht : time_reached now st.fast_deadline_ms = true) :
    drv_dvr_status_step now DVR_LED_FAST_BLINK st =
      ({ st with sd_error_emitted := true },
       [emit_event now EV_DVR_ERROR EVR_TIMEOUT
          (error_code_t.toNat ERR_DVR_CARD_ERROR)
          (dvr_led_pattern_t.toNat DVR_LED_FAST_BLINK)]) := by
  unfold drv_dvr_status_step observe_pattern sd_fault_check
  simp [hl, ha, he, ht]

theorem run_fast_latched :
    ∀ (l : List (Nat × dvr_led_pattern_t)) (st : drv_dvr_status_t),
    st.last_pat = DVR_LED_FAST_BLINK → st.sd_error_emitted = true →
    (∀ p ∈ l, p.2 = DVR_LED_FAST_BLINK) →
    drv_dvr_status_run st l = (st, []) := by
  intro l
  induction l with
  | nil => intro st _ _ _; rfl
  | cons p rest ih =>
    intro st hl he hall
    obtain ⟨t, pp⟩ := p
    have hp : pp = DVR_LED_FAST_BLINK := hall (t, pp) (by simp)
    subst hp
    show (let r := drv_dvr_status_step t DVR_LED_FAST_BLINK st
          let r2 := drv_dvr_status_run r.1 rest
          (r2.1, r.2 ++ r2.2)) = (st, [])
    rw [step_fast_latched hl he t]
    simp only
    rw [ih st hl he (fun q hq => hall q (List.mem_cons_of_mem _ hq))]
    rfl

theorem run_fast_quiet :
    ∀ (l : List (Nat × dvr_led_pattern_t)) (st : drv_dvr_status_t),
    st.last_pat = DVR_LED_FAST_BLINK → st.fast_deadline_ms < U32 →
    (∀ p ∈ l, p.2 = DVR_LED_FAST_BLINK ∧ p.1 < st.fast_deadline_ms ∧
      st.fast_deadline_ms ≤ p.1 + T_BOOT_TIMEOUT_MS) →
    drv_dvr_status_run st l = (st, []) := by
  intro l
  induction l with
  | nil => intro st _ _ _; rfl
  | cons p rest ih =>
    intro st hl hd hall
    obtain ⟨t, pp⟩ := p
    obtain ⟨hp, hlt, hgap⟩ := hall (t, pp) (by simp)
    subst hp
    have htime : time_reached t st.fast_deadline_ms = false :=
      time_reached_of_lt hlt (by simp only [T_BOOT_TIMEOUT_MS] at hgap; omega) hd
    show (let r := drv_dvr_status_step t DVR_LED_FAST_BLINK st
          let r2 := drv_dvr_status_run r.1 rest
          (r2.1, r.2 ++ r2.2)) = (st, [])
    rw [step_fast_armed_quiet hl htime]
    simp only
    rw [ih st hl hd (fun q hq => hall q (List.mem_cons_of_mem _ hq))]
    rfl

theorem run_fast_counts :
    ∀ (l : List (Nat × dvr_led_pattern_t)) (st : drv_dvr_status_t),
    st.last_pat = DVR_LED_FAST_BLINK → st.fast_persist_armed = true →
    st.sd_error_emitted = false → st.fast_deadline_ms < U32 →
    (∀ p ∈ l, p.2 = DVR_LED_FAST_BLINK ∧ p.1 < 2147483648 ∧
      st.fast_deadline_ms ≤ p.1 + T_BOOT_TIMEOUT_MS) →
    err_count (drv_dvr_status_run st l).2 =
      if l.any (fun p => decide (st.fast_deadline_ms ≤ p.1)) then 1 else 0 := by
  intro l
  induction l with
  | nil => intro st _ _ _ _ _; rfl
  | cons p rest ih =>
    intro st hl ha he hd hall
    obtain ⟨t, pp⟩ := p
    obtain ⟨hp, hbound, hgap⟩ := hall (t, pp) (by simp)
    subst hp
    have hrest : ∀ p ∈ rest, p.2 = DVR_LED_FAST_BLINK ∧ p.1 < 2147483648 ∧
        st.fast_deadline_ms ≤ p.1 + T_BOOT_TIMEOUT_MS :=
      fun q hq => hall q (List.mem_cons_of_mem _ hq)
    by_cases hreach : st.fast_deadline_ms ≤ t
    · have htime : time_reached t st.fast_deadline_ms = true :=
        time_reached_of_le hreach (by omega) hd
      show err_count (let r := drv_dvr_status_step t DVR_LED_FAST_BLINK st
            let r2 := drv_dvr_status_run r.1 rest
            (r2.1, r.2 ++ r2.2)).2 =
          if ((t, DVR_LED_FAST_BLINK) :: rest).any
              (fun p => decide (st.fast_deadline_ms ≤ p.1)) then 1 else 0
      rw [step_fast_armed_reached hl ha he htime]
      simp only
      have hlatched := run_fast_latched rest
        ({ st with sd_error_emitted := true }) hl rfl
        (fun q hq => (hrest q hq).1)
      rw [hlatched]
      simp [err_count, emit_event, List.any_cons, hreach]
    · have htime : time_reached t st.fast_deadline_ms = false :=
        time_reached_of_lt (by omega) (by simp only [T_BOOT_TIMEOUT_MS] at hgap; omega) hd
      show err_count (let r := drv_dvr_status_step t DVR_LED_FAST_BLINK st
            let r2 := drv_dvr_status_run r.1 rest
            (r2.1, r.2 ++ r2.2)).2 =
          if ((t, DVR_LED_FAST_BLINK) :: rest).any
              (fun p => decide (st.fast_deadline_ms ≤ p.1)) then 1 else 0
      rw [step_fast_armed_quiet hl htime]
      simp only
      rw [List.any_cons]
      have hfalse : decide (st.fast_deadline_ms ≤ t) = false := by
        simp; omega
      rw [hfalse, Bool.false_or]
      exact ih st hl ha he hd hrest

theorem drv_dvr_status_run_append :
    ∀ (a b : List (Nat × dvr_led_pattern_t)) (st : drv_dvr_status_t),
    drv_dvr_status_run st (a ++ b) =
      ((drv_dvr_status_run (drv_dvr_status_run st a).1 b).1,
       (drv_dvr_status_run st a).2 ++
         (drv_dvr_status_run (drv_dvr_status_run st a).1 b).2) := by
  intro a
  induction a with
  | nil => intro b st; rfl
  | cons p rest ih =>
    intro b st
    obtain ⟨t, pp⟩ := p
    have h1 : (drv_dvr_status_run st ((t, pp) :: rest)).1
        = (drv_dvr_status_run (drv_dvr_status_step t pp st).1 rest).1 := rfl
    have h2 : (drv_dvr_status_run st ((t, pp) :: rest)).2
        = (drv_dvr_status_step t pp st).2 ++
            (drv_dvr_status_run (drv_dvr_status_step t pp st).1 rest).2 := rfl
    show (let r := drv_dvr_status_step t pp st
          let r2 := drv_dvr_status_run r.1 (rest ++ b)
          (r2.1, r.2 ++ r2.2)) = _
    simp only
    rw [ih b (drv_dvr_status_step t pp st).1, h1, h2]
    simp only [List.append_assoc]

theorem step_enter_fast {st : drv_dvr_status_t}
    (hl : st.last_pat ≠ DVR_LED_FAST_BLINK)
    (ha : st.fast_persist_armed = false) (t0 : Nat) (ht0 : t0 < 2147483648) :
    drv_dvr_status_step t0 DVR_LED_FAST_BLINK st =
      ({ st with last_pat := DVR_LED_FAST_BLINK, fast_persist_armed := true,
                 fast_deadline_ms := t0 + T_BOOT_TIMEOUT_MS,
                 sd_error_emitted := false }, []) := by
  have hmod : (t0 + T_BOOT_TIMEOUT_MS) % U32 = t0 + T_BOOT_TIMEOUT_MS := by
    apply Nat.mod_eq_of_lt
    simp only [T_BOOT_TIMEOUT_MS, U32]
    omega
  have htime : time_reached t0 (t0 + T_BOOT_TIMEOUT_MS) = false := by
    apply time_reached_of_lt
    · simp only [T_BOOT_TIMEOUT_MS]; omega
    · simp only [T_BOOT_TIMEOUT_MS]; omega
    · simp only [T_BOOT_TIMEOUT_MS, U32]; omega
  have hne : ¬ (DVR_LED_FAST_BLINK = st.last_pat) := fun h => hl h.symm
  obtain ⟨lp, fa, fd, se, rec⟩ := st
  simp only at hl ha hne
  subst ha
  unfold drv_dvr_status_step observe_pattern on_pattern_transition
    record_latch_block power_hint_block sd_discriminator_block
    arm_fast_persist sd_fault_check
  simp only [hne, if_neg hne]
  split_ifs <;> simp_all [hmod, htime]

theorem step_off_from_fast {st : drv_dvr_status_t}
    (hl : st.last_pat = DVR_LED_FAST_BLINK) (tOff : Nat) :
    err_count (drv_dvr_status_step tOff DVR_LED_OFF st).2 = 0 := by
  obtain ⟨lp, fa, fd, se, rec⟩ := st
  simp only at hl
  subst hl
  unfold drv_dvr_status_step observe_pattern on_pattern_transition
    record_latch_block power_hint_block sd_discriminator_block
    disarm_fast_persist cancels_fast_persist sd_fault_check
  simp [emit_event, err_count]

/-- C3: from any interpreter state that is not already inside a fast-blink
episode, if the pattern enters `FastBlink` at time `t0` and every subsequent
poll still observes `FastBlink`, then exactly one
`DeviceError(CardFault)` event is emitted when some poll reaches
`t0 + T_BOOT_TIMEOUT_MS`, and none before (the count is 0 when no poll reaches
the deadline); and if every fast-blink poll stays below the deadline and the
pattern then becomes `Off`, zero `DeviceError` events are emitted in total.
(Times are within the no-wraparound range of the `uint32_t` clock.) -/
theorem C3_fault_one_shot :
    ∀ (st : drv_dvr_status_t), st.last_pat ≠ DVR_LED_FAST_BLINK →
    st.fast_persist_armed = false →
    ∀ (t0 : Nat), t0 < 2147483648 →
    ∀ (rest : List (Nat × dvr_led_pattern_t)),
    (∀ p ∈ rest, p.2 = DVR_LED_FAST_BLINK ∧ t0 ≤ p.1 ∧ p.1 < 2147483648) →
    (err_count (drv_dvr_status_run st ((t0, DVR_LED_FAST_BLINK) :: rest)).2
        = if rest.any (fun p => decide (t0 + T_BOOT_TIMEOUT_MS ≤ p.1))
          then 1 else 0) ∧
    ((∀ p ∈ rest, p.1 < t0 + T_BOOT_TIMEOUT_MS) → ∀ tOff : Nat,
      err_count (drv_dvr_status_run st
          (((t0, DVR_LED_FAST_BLINK) :: rest) ++ [(tOff, DVR_LED_OFF)])).2 = 0) := by
  intro st hlast harm t0 ht0 rest hrest
  have hstep := step_enter_fast hlast harm t0 ht0
  have hdlt : (t0 + T_BOOT_TIMEOUT_MS) < U32 := by
    simp only [T_BOOT_TIMEOUT_MS, U32]; omega
  constructor
  · show err_count (let r := drv_dvr_status_step t0 DVR_LED_FAST_BLINK st
        let r2 := drv_dvr_status_run r.1 rest
        (r2.1, r.2 ++ r2.2)).2 = _
    rw [hstep]
    simp only [List.nil_append]
    exact run_fast_counts rest _ rfl rfl rfl hdlt
      (fun q hq => ⟨(hrest q hq).1, (hrest q hq).2.2, by
        have := (hrest q hq).2.1; simp only; omega⟩)
  · intro hlt tOff
    have hassoc : ((t0, DVR_LED_FAST_BLINK) :: rest) ++ [(tOff, DVR_LED_OFF)]
        = (t0, DVR_LED_FAST_BLINK) :: (rest ++ [(tOff, DVR_LED_OFF)]) := rfl
    rw [hassoc]
    show err_count (let r := drv_dvr_status_step t0 DVR_LED_FAST_BLINK st
        let r2 := drv_dvr_status_run r.1 (rest ++ [(tOff, DVR_LED_OFF)])
        (r2.1, r.2 ++ r2.2)).2 = 0
    rw [hstep]
    simp only [List.nil_append]
    rw [drv_dvr_status_run_append]
    have hquiet := run_fast_quiet rest
      ({ st with last_pat := DVR_LED_FAST_BLINK, fast_persist_armed := true,
                 fast_deadline_ms := t0 + T_BOOT_TIMEOUT_MS,
                 sd_error_emitted := false }) rfl hdlt
      (fun q hq => ⟨(hrest q hq).1,
        by simpa using hlt q hq,
        by have h2 := (hrest q hq).2.1
           show t0 + T_BOOT_TIMEOUT_MS ≤ q.1 + T_BOOT_TIMEOUT_MS
           omega⟩)
    rw [hquiet]
    simp only [List.nil_append]
    show err_count (let r := drv_dvr_status_step tOff DVR_LED_OFF _
        let r2 := drv_dvr_status_run r.1 []
        (r2.1, r.2 ++ r2.2)).2 = 0
    simp only [drv_dvr_status_run, List.append_nil]
    exact step_off_from_fast rfl tOff

theorem C3_witness :
    err_count (drv_dvr_status_run drv_dvr_status_init
      [(0, DVR_LED_FAST_BLINK), (8000, DVR_LED_FAST_BLINK)]).2 = 1 := by
  have h := (C3_fault_one_shot drv_dvr_status_init (by decide) rfl 0 (by decide)
    [(8000, DVR_LED_FAST_BLINK)] (by decide)).1
  simpa using h

/-!
## LED classifier (dvr_led.cpp, edge-count revision)

`dvr_led_poll` consumes the instantaneous input level and the number of edges
flagged by the interrupt handler since the previous poll, then applies the
quiet-time rule.  On the status sense line `LOW` means the DVR LED is on.
-/

/-- dvr_led.cpp: glitch-reject window (ms). -/
def DVR_LED_GLITCH_MS : Nat := 5

/-- Internal state of dvr_led.cpp. -/
structure dvr_led_t where
  pat : dvr_led_pattern_t
  level : Nat
  last_edge_ms : Nat
  last_level_change_ms : Nat
  win_start_ms : Nat
  win_edges : Nat
deriving DecidableEq, Repr, Inhabited

/-- `u16_sat_add`. -/
def u16_sat_add (a b : Nat) : Nat :=
  if a + b > 65535 then 65535 else a + b

/-- `estimate_period_ms`: estimated blink period from edges over the window
(`uint16_t` result, hence the final truncation). -/
def estimate_period_ms (win_dt edges : Nat) : Nat :=
  if edges < 4 then 0
  else
    let cycles := edges / 2
    if cycles = 0 then 0 else (win_dt / cycles) % 65536

/-- `classify_by_period`. -/
def classify_by_period (period_ms : Nat) : dvr_led_pattern_t :=
  if period_ms = 0 then DVR_LED_UNKNOWN
  else if T_FAST_MIN_MS ≤ period_ms ∧ period_ms ≤ T_FAST_MAX_MS then
    DVR_LED_FAST_BLINK
  else if T_SLOW_MIN_MS ≤ period_ms ∧ period_ms ≤ T_SLOW_MAX_MS then
    DVR_LED_SLOW_BLINK
  else DVR_LED_UNKNOWN

/-- `reset_window`. -/
def reset_window (now_ms : Nat) (st : dvr_led_t) : dvr_led_t :=
  { st with win_start_ms := now_ms, win_edges := 0 }

/-- The edge-acceptance half of `dvr_led_poll` (everything before the
quiet-time rule). -/
def dvr_led_edge_phase (now_ms level edges : Nat) (st : dvr_led_t) : dvr_led_t :=
  if edges > 0 then
    if DVR_LED_GLITCH_MS ≤ u32sub now_ms st.last_level_change_ms then
      let st1 : dvr_led_t :=
        { st with last_edge_ms := now_ms, last_level_change_ms := now_ms,
                  win_edges := u16_sat_add st.win_edges edges, level := level }
      let st2 := if u32sub now_ms st1.win_start_ms > T_SLOW_MAX_MS * 4 then
          reset_window now_ms st1 else st1
      let bp := classify_by_period
        (estimate_period_ms (u32sub now_ms st2.win_start_ms) st2.win_edges)
      if bp ≠ DVR_LED_UNKNOWN then reset_window now_ms { st2 with pat := bp }
      else st2
    else { st with level := level }
  else { st with level := level }

/-- `dvr_led_poll`: edge phase, then the quiet-time rule — with no edge
accepted for at least `T_SOLID_MS`, publish `SOLID`/`OFF` from the sampled
level alone, unconditionally on the prior pattern. -/
def dvr_led_poll (now_ms level edges : Nat) (st : dvr_led_t) : dvr_led_t :=
  let st1 := dvr_led_edge_phase now_ms level edges st
  if T_SOLID_MS ≤ u32sub now_ms st1.last_edge_ms then
    reset_window now_ms
      { st1 with pat := if level = LOW then DVR_LED_SOLID else DVR_LED_OFF }
  else st1

/-- `dvr_led_init` (at time `now`, sampling `level`). -/
def dvr_led_init (now level : Nat) : dvr_led_t :=
  { pat := DVR_LED_UNKNOWN, level := level, last_edge_ms := now,
    last_level_change_ms := now, win_start_ms := now, win_edges := 0 }

/-- Run the classifier over `(now, level, edges)` poll samples. -/
def dvr_led_run (st : dvr_led_t) (l : List (Nat × Nat × Nat)) : dvr_led_t :=
  l.foldl (fun s p => dvr_led_poll p.1 p.2.1 p.2.2 s) st

/-- A genuine slow-blink edge history: four accepted edges 1000 ms apart
(period estimate 2000 ms, inside the slow band), reaching a published
`SLOW_BLINK`. -/
def c8_trace : List (Nat × Nat × Nat) :=
  [(1000, LOW, 1), (2000, HIGH, 1), (3000, LOW, 1), (4000, HIGH, 1)]

/-- C8 fails as stated: after the classifier publishes `SLOW_BLINK` (last
accepted edge at 4000 ms), a poll at 5500 ms — a quiet interval of exactly
`T_SOLID_MS`, far below the claimed stickiness bound
`T_SOLID_MS + T_SLOW_MAX_MS` — already overwrites the pattern with `OFF`:
the quiet-time rule has no blink-stickiness window. -/
theorem C8_counterexample :
    (dvr_led_run (dvr_led_init 0 HIGH) c8_trace).pat = DVR_LED_SLOW_BLINK ∧
    (dvr_led_run (dvr_led_init 0 HIGH) c8_trace).last_edge_ms = 4000 ∧
    u32sub 5500 4000 < T_SOLID_MS + T_SLOW_MAX_MS ∧
    (dvr_led_poll 5500 HIGH 0 (dvr_led_run (dvr_led_init 0 HIGH) c8_trace)).pat
      = DVR_LED_OFF := by
  decide

/-- C8 (amended): if no edge is pending and none has been accepted for at
least the solid threshold (1500 ms), the published pattern becomes `Solid`
when the instantaneous level reads on (`LOW`) and `Off` otherwise — for every
prior classifier state, including a prior `SlowBlink`/`FastBlink`: the code
implements no additional stickiness window for blink patterns. -/
theorem C8_quiet_rule :
    ∀ (st : dvr_led_t) (now level : Nat),
    T_SOLID_MS ≤ u32sub now st.last_edge_ms →
    (dvr_led_poll now level 0 st).pat
      = (if level = LOW then DVR_LED_SOLID else DVR_LED_OFF) := by
  intro st now level hq
  unfold dvr_led_poll dvr_led_edge_phase
  simp only [gt_iff_lt, Nat.lt_irrefl, if_false, reset_window]
  have hle : (({ st with level := level } : dvr_led_t)).last_edge_ms
      = st.last_edge_ms := rfl
  rw [hle, if_pos hq]

theorem C8_witness :
    T_SOLID_MS ≤ u32sub 1500 (dvr_led_init 0 HIGH).last_edge_ms ∧
    (dvr_led_poll 1500 HIGH 0 (dvr_led_init 0 HIGH)).pat = DVR_LED_OFF := by
  refine ⟨by decide, ?_⟩
  have h := C8_quiet_rule (dvr_led_init 0 HIGH) 1500 HIGH (by decide)
  simpa using h

/-!
## Executor (executor.cpp, LED + beeper + DVR-press revision)

Outputs are the `digitalWrite` calls, recorded as `(pin, level)` pairs in
program order.  The executor drives exactly three output pins; no power-cut
(KILL) line is written anywhere in the translation unit.
-/

/-- The output pins written by executor.cpp. -/
inductive pin_t where
  | PIN_STATUS_LED | PIN_BUZZER_OUT | PIN_DVR_BTN_CMD
deriving DecidableEq, Repr, Inhabited

export pin_t (PIN_STATUS_LED PIN_BUZZER_OUT PIN_DVR_BTN_CMD)

/-- Internal state of executor.cpp. -/
structure executor_t where
  led_pat : led_pattern_t
  led_level : Bool
  led_next_ms : Nat
  beep_active : Bool
  beep_pat : beep_pattern_t
  buzz_level : Bool
  beep_remaining : Nat
  beep_phase : Nat
  beep_next_ms : Nat
  dvr_active : Bool
  dvr_pressed : Bool
  dvr_next_ms : Nat
  dvr_press_ms : Nat
deriving DecidableEq, Repr, Inhabited

/-- `(led_pattern_t)(arg0 & 0xFF)`: out-of-range raw values keep no dedicated
constructor; they are mapped to `LED_NONE`, which the `led_step` switch sends
to the same `default` branch the C cast's junk values reach. -/
def led_pattern_of_raw (n : Nat) : led_pattern_t :=
  match n % 256 with
  | 0 => LED_NONE
  | 1 => LED_OFF
  | 2 => LED_SOLID
  | 3 => LED_SLOW_BLINK
  | 4 => LED_FAST_BLINK
  | 5 => LED_LOCKOUT_PATTERN
  | 6 => LED_ERROR_PATTERN
  | _ => LED_NONE

/-- `(beep_pattern_t)(arg0 & 0xFF)`: junk values behave like `BEEP_NONE`
(zero beeps) in `start_beep`'s default branch. -/
def beep_pattern_of_raw (n : Nat) : beep_pattern_t :=
  match n % 256 with
  | 1 => BEEP_SINGLE
  | 2 => BEEP_DOUBLE
  | 3 => BEEP_TRIPLE
  | 4 => BEEP_ERROR_FAST
  | 5 => BEEP_LOW_BAT
  | _ => BEEP_NONE

/-- `led_step`: the background status-light engine.  `LED_SLOW_BLINK`,
`LED_FAST_BLINK`, `LED_LOCKOUT_PATTERN` and `LED_ERROR_PATTERN` share one
branch whose on/off durations depend only on whether the pattern is
`LED_FAST_BLINK` (100/150 ms) — all three others get 300/700 ms. -/
def led_step (now_ms : Nat) (st : executor_t) :
    executor_t × List (pin_t × Bool) :=
  if now_ms < st.led_next_ms then (st, [])
  else
    match st.led_pat with
    | LED_OFF =>
      ({ st with led_level := false, led_next_ms := now_ms + 1000 },
       [(PIN_STATUS_LED, false)])
    | LED_SOLID =>
      ({ st with led_level := true, led_next_ms := now_ms + 1000 },
       [(PIN_STATUS_LED, true)])
    | LED_SLOW_BLINK | LED_FAST_BLINK | LED_LOCKOUT_PATTERN | LED_ERROR_PATTERN =>
      if st.led_level = false then
        ({ st with led_level := true,
                   led_next_ms := now_ms +
                     (if st.led_pat = LED_FAST_BLINK then 100 else 300) },
         [(PIN_STATUS_LED, true)])
      else
        ({ st with led_level := false,
                   led_next_ms := now_ms +
                     (if st.led_pat = LED_FAST_BLINK then 150 else 700) },
         [(PIN_STATUS_LED, false)])
    | _ =>
      ({ st with led_pat := LED_OFF, led_level := false,
                 led_next_ms := now_ms + 1000 },
       [(PIN_STATUS_LED, false)])

/-- `start_beep`. -/
def start_beep (now_ms : Nat) (pat : beep_pattern_t) (st : executor_t) :
    executor_t :=
  let remaining : Nat :=
    match pat with
    | BEEP_SINGLE => 1
    | BEEP_DOUBLE => 2
    | BEEP_TRIPLE => 3
    | BEEP_ERROR_FAST => 4
    | BEEP_LOW_BAT => 2
    | _ => 0
  { st with beep_pat := pat, beep_phase := 0, buzz_level := false,
            beep_remaining := remaining,
            beep_active := decide (remaining > 0), beep_next_ms := now_ms }

/-- `beep_step`. -/
def beep_step (now_ms : Nat) (st : executor_t) :
    executor_t × List (pin_t × Bool) :=
  if st.beep_active = false then (st, [])
  else if now_ms < st.beep_next_ms then (st, [])
  else if st.beep_remaining = 0 then
    ({ st with beep_active := false }, [(PIN_BUZZER_OUT, false)])
  else
    if st.beep_phase = 0 then
      let beep_on_ms : Nat := if st.beep_pat = BEEP_ERROR_FAST then 50 else 80
      ({ st with beep_next_ms := now_ms + beep_on_ms, beep_phase := 1 },
       [(PIN_BUZZER_OUT, true)])
    else if st.beep_phase = 1 then
      if st.beep_remaining - 1 = 0 then
        ({ st with beep_remaining := st.beep_remaining - 1, beep_next_ms := now_ms + 180, beep_phase := 2 },
         [(PIN_BUZZER_OUT, false)])
      else
        ({ st with beep_remaining := st.beep_remaining - 1, beep_next_ms := now_ms + 80, beep_phase := 0 },
         [(PIN_BUZZER_OUT, false)])
    else
      ({ st with beep_active := false }, [])

/-- `start_dvr_press`: deterministic policy — ignored while a press is in
flight; otherwise assert the button line and schedule the release. -/
def start_dvr_press (now_ms press_ms : Nat) (st : executor_t) :
    executor_t × List (pin_t × Bool) :=
  if st.dvr_active = true then (st, [])
  else
    ({ st with dvr_active := true, dvr_pressed := true,
               dvr_press_ms := press_ms, dvr_next_ms := now_ms + press_ms },
     [(PIN_DVR_BTN_CMD, true)])

/-- `dvr_step`. -/
def dvr_step (now_ms : Nat) (st : executor_t) :
    executor_t × List (pin_t × Bool) :=
  if st.dvr_active = false then (st, [])
  else if now_ms < st.dvr_next_ms then (st, [])
  else if st.dvr_pressed = true then
    ({ st with dvr_pressed := false, dvr_next_ms := now_ms + T_DVR_PRESS_GAP_MS },
     [(PIN_DVR_BTN_CMD, false)])
  else
    ({ st with dvr_active := false }, [])

/-- The dispatch switch inside `executor_poll`'s drain loop.  Only
`ACT_LED_PATTERN`, `ACT_BEEP`, `ACT_DVR_PRESS_SHORT` and `ACT_DVR_PRESS_LONG`
have cases; everything else — `ACT_LTC_KILL_ASSERT` included — falls into
`default:` ("ignore unsupported actions deterministically"). -/
def apply_action (now_ms : Nat) (a : action_t) (st : executor_t) :
    executor_t × List (pin_t × Bool) :=
  match a.id with
  | ACT_LED_PATTERN =>
    ({ st with led_pat := led_pattern_of_raw a.arg0, led_next_ms := now_ms }, [])
  | ACT_BEEP => (start_beep now_ms (beep_pattern_of_raw a.arg0) st, [])
  | ACT_DVR_PRESS_SHORT => start_dvr_press now_ms T_DVR_PRESS_SHORT_MS st
  | ACT_DVR_PRESS_LONG => start_dvr_press now_ms T_DVR_PRESS_LONG_MS st
  | _ => (st, [])

/-- Drain loop of `executor_poll` (`while (actionq_pop(&a)) switch ...`);
`fuel = 8` bounds the at-most-7 queued actions, and no action is ever pushed
during the drain. -/
def executor_drain :
    Nat → Nat → executor_t → ringq_t action_t 8 →
      executor_t × ringq_t action_t 8 × List (pin_t × Bool)
  | 0, _, st, q => (st, q, [])
  | fuel + 1, now, st, q =>
    let r := ringq_pop q
    match r.1 with
    | none => (st, r.2, [])
    | some a =>
      let ra := apply_action now a st
      let rr := executor_drain fuel now ra.1 r.2
      (rr.1, rr.2.1, ra.2 ++ rr.2.2)

/-- `executor_poll`: drain the action queue, then advance all three engines. -/
def executor_poll (now_ms : Nat) (st : executor_t) (q : ringq_t action_t 8) :
    executor_t × ringq_t action_t 8 × List (pin_t × Bool) :=
  let rd := executor_drain 8 now_ms st q
  let rl := led_step now_ms rd.1
  let rb := beep_step now_ms rl.1
  let rv := dvr_step now_ms rb.1
  (rv.1, rd.2.1, rd.2.2 ++ rl.2 ++ rb.2 ++ rv.2)

/-- `executor_init` / `executor_abort_feedback` resting state. -/
def executor_init_state : executor_t :=
  { led_pat := LED_OFF, led_level := false, led_next_ms := 0,
    beep_active := false, beep_pat := BEEP_NONE, buzz_level := false,
    beep_remaining := 0, beep_phase := 0, beep_next_ms := 0,
    dvr_active := false, dvr_pressed := false, dvr_next_ms := 0,
    dvr_press_ms := 0 }

/-- C6: contrary to the claim, a popped `ACT_LTC_KILL_ASSERT` action is a
no-op in the executor: the dispatch switch has no case for it, so processing
it leaves the executor state untouched and writes no output at all — in
particular it never sets a power-cut output (the executor writes only the
status-LED, buzzer and DVR-button pins). -/
theorem C6_kill_action_ignored :
    ∀ (now : Nat) (st : executor_t) (a : action_t),
    a.id = ACT_LTC_KILL_ASSERT →
    apply_action now a st = (st, []) := by
  intro now st a hid
  unfold apply_action
  rw [hid]

/-- The failing input for C6: an `AssertKill` action as the FSM would emit
it. -/
def c6_kill_action : action_t :=
  { t_enq_ms := 0, id := ACT_LTC_KILL_ASSERT, arg0 := 0, arg1 := 0 }

theorem C6_witness :
    c6_kill_action.id = ACT_LTC_KILL_ASSERT ∧
    apply_action 5 c6_kill_action executor_init_state
      = (executor_init_state, []) :=
  ⟨rfl, C6_kill_action_ignored 5 executor_init_state c6_kill_action rfl⟩

theorem led_step_error_pat {st : executor_t}
    (hpat : st.led_pat = LED_ERROR_PATTERN) (now : Nat) :
    (led_step now st).1.led_pat = LED_ERROR_PATTERN := by
  obtain ⟨lp, lv, ln, ba, bp, bz, br, bh, bn, da, dp, dn, dm⟩ := st
  simp only at hpat
  subst hpat
  unfold led_step
  by_cases h : now < ln
  · simp [h]
  · simp only [h, if_neg (by omega : ¬ now < ln)]
    by_cases hl : lv = false <;> simp [hl]

theorem led_step_error_lockout {st : executor_t}
    (hpat : st.led_pat = LED_ERROR_PATTERN) (now : Nat) :
    led_step now { st with led_pat := LED_LOCKOUT_PATTERN } =
      ({ (led_step now st).1 with led_pat := LED_LOCKOUT_PATTERN },
       (led_step now st).2) := by
  obtain ⟨lp, lv, ln, ba, bp, bz, br, bh, bn, da, dp, dn, dm⟩ := st
  simp only at hpat
  subst hpat
  unfold led_step
  by_cases h : now < ln
  · simp [h]
  · simp only [h, if_neg (by omega : ¬ now < ln)]
    by_cases hl : lv = false <;> simp [hl]

/-- The LED engine alone, stepped over a list of poll times, collecting the
output-level writes in order. -/
def led_run : executor_t → List Nat → executor_t × List (pin_t × Bool)
  | st, [] => (st, [])
  | st, now :: rest =>
    let r := led_step now st
    let r2 := led_run r.1 rest
    (r2.1, r.2 ++ r2.2)

theorem led_run_error_lockout :
    ∀ (times : List Nat) (st : executor_t),
    st.led_pat = LED_ERROR_PATTERN →
    led_run { st with led_pat := LED_LOCKOUT_PATTERN } times =
      ({ (led_run st times).1 with led_pat := LED_LOCKOUT_PATTERN },
       (led_run st times).2) := by
  intro times
  induction times with
  | nil => intro st _; rfl
  | cons now rest ih =>
    intro st hpat
    show (let r := led_step now { st with led_pat := LED_LOCKOUT_PATTERN }
          let r2 := led_run r.1 rest
          (r2.1, r.2 ++ r2.2)) = _
    rw [led_step_error_lockout hpat now]
    simp only
    rw [ih (led_step now st).1 (led_step_error_pat hpat now)]
    rfl

/-- C9: the claim fails — for every executor state and every sequence of poll
times, the status-light engine produces exactly the same output-level write
sequence under `LED_LOCKOUT_PATTERN` as under `LED_ERROR_PATTERN` (both take
the shared 300 ms on / 700 ms off branch of `led_step`), so no time offset
distinguishes them. -/
theorem C9_lockout_error_indistinguishable :
    ∀ (times : List Nat) (st : executor_t),
    (led_run { st with led_pat := LED_LOCKOUT_PATTERN } times).2 =
      (led_run { st with led_pat := LED_ERROR_PATTERN } times).2 := by
  intro times st
  have h := led_run_error_lockout times
    ({ st with led_pat := LED_ERROR_PATTERN }) rfl
  have hcollapse :
      ({ ({ st with led_pat := LED_ERROR_PATTERN } : executor_t) with
          led_pat := LED_LOCKOUT_PATTERN } : executor_t)
        = { st with led_pat := LED_LOCKOUT_PATTERN } := rfl
  rw [hcollapse] at h
  rw [h]

/-!
## Controller FSM (controller_fsm.cpp) and presentation policy (ui_policy.cpp)

Action emissions are returned as the list of records passed to
`actionq_push`, in program order.  The enum casts `(battery_state_t)(arg0 &
0xFF)` and `(error_code_t)(arg0 & 0xFF)` are modelled by decoders; raw values
outside the enum range have no constructor of their own and are mapped to a
value with identical observable behaviour in this translation unit (the FSM
only compares the stored value against specific enum constants).
-/

/-- Numeric value of a `led_pattern_t` (C enum encoding, `LED_NONE = 0`). -/
def led_pattern_t.toNat : led_pattern_t → Nat
  | LED_NONE => 0
  | LED_OFF => 1
  | LED_SOLID => 2
  | LED_SLOW_BLINK => 3
  | LED_FAST_BLINK => 4
  | LED_LOCKOUT_PATTERN => 5
  | LED_ERROR_PATTERN => 6

/-- Numeric value of a `beep_pattern_t`. -/
def beep_pattern_t.toNat : beep_pattern_t → Nat
  | BEEP_NONE => 0
  | BEEP_SINGLE => 1
  | BEEP_DOUBLE => 2
  | BEEP_TRIPLE => 3
  | BEEP_ERROR_FAST => 4
  | BEEP_LOW_BAT => 5

/-- `(battery_state_t)(arg0 & 0xFF)`; junk raw values compare unequal to
every named state, as does `BAT_UNKNOWN`. -/
def battery_state_of_raw (n : Nat) : battery_state_t :=
  match n % 256 with
  | 1 => BAT_FULL
  | 2 => BAT_HALF
  | 3 => BAT_LOW
  | 4 => BAT_CRITICAL
  | _ => BAT_UNKNOWN

/-- `(error_code_t)(arg0 & 0xFF)`; nonzero junk raw values stay nonzero
(`ERR_ILLEGAL_STATE`) so `err != ERR_NONE` tests behave as in C. -/
def error_code_of_raw (n : Nat) : error_code_t :=
  match n % 256 with
  | 0 => ERR_NONE
  | 1 => ERR_DVR_BOOT_TIMEOUT
  | 2 => ERR_DVR_ABNORMAL_BOOT
  | 3 => ERR_DVR_CARD_ERROR
  | 4 => ERR_BAT_CRITICAL
  | 5 => ERR_BAT_LOCKOUT
  | 6 => ERR_ILLEGAL_STATE
  | 7 => ERR_UNEXPECTED_EVENT
  | 8 => ERR_UNEXPECTED_LED_PATTERN
  | _ => ERR_ILLEGAL_STATE

/-- Internal state of ui_policy.cpp. -/
structure ui_policy_t where
  last_state : controller_state_t
  last_led : led_pattern_t
deriving DecidableEq, Repr, Inhabited

/-- ui_policy's `led()` helper: identical LED pattern commands are not
re-emitted. -/
def ui_led (now_ms : Nat) (p : led_pattern_t) (ui : ui_policy_t) :
    ui_policy_t × List action_t :=
  if p = ui.last_led then (ui, [])
  else
    ({ ui with last_led := p },
     [{ t_enq_ms := now_ms, id := ACT_LED_PATTERN, arg0 := p.toNat, arg1 := 0 }])

/-- ui_policy's `beep()` helper (always emits). -/
def ui_beep (now_ms : Nat) (p : beep_pattern_t) : action_t :=
  { t_enq_ms := now_ms, id := ACT_BEEP, arg0 := p.toNat, arg1 := 0 }

/-- `ui_policy_on_state_enter`. -/
def ui_policy_on_state_enter (now_ms : Nat) (s : controller_state_t)
    (err : error_code_t) (bat : battery_state_t) (ui : ui_policy_t) :
    ui_policy_t × List action_t :=
  let state_changed := ¬ (s = ui.last_state)
  let ui1 : ui_policy_t := { ui with last_state := s }
  match s with
  | STATE_OFF => ui_led now_ms LED_OFF ui1
  | STATE_BOOTING => ui_led now_ms LED_FAST_BLINK ui1
  | STATE_IDLE => ui_led now_ms LED_SOLID ui1
  | STATE_RECORDING => ui_led now_ms LED_SLOW_BLINK ui1
  | STATE_LOW_BAT =>
    let r := ui_led now_ms LED_SLOW_BLINK ui1
    if state_changed then
      (r.1, r.2 ++ [ui_beep now_ms
        (if bat = BAT_CRITICAL then BEEP_ERROR_FAST else BEEP_LOW_BAT)])
    else r
  | STATE_ERROR =>
    let r := ui_led now_ms LED_ERROR_PATTERN ui1
    if state_changed then (r.1, r.2 ++ [ui_beep now_ms BEEP_ERROR_FAST]) else r
  | STATE_LOCKOUT =>
    let r := ui_led now_ms LED_LOCKOUT_PATTERN ui1
    if state_changed then (r.1, r.2 ++ [ui_beep now_ms BEEP_SINGLE]) else r

/-- `ui_policy_on_record_confirmed`. -/
def ui_policy_on_record_confirmed (now_ms : Nat) (ui : ui_policy_t) :
    ui_policy_t × List action_t :=
  (ui, [ui_beep now_ms BEEP_DOUBLE])

/-- `ui_policy_on_stop_confirmed`. -/
def ui_policy_on_stop_confirmed (now_ms : Nat) (ui : ui_policy_t) :
    ui_policy_t × List action_t :=
  (ui, [ui_beep now_ms BEEP_SINGLE])

/-- `ui_policy_on_error`. -/
def ui_policy_on_error (now_ms : Nat) (err : error_code_t) (ui : ui_policy_t) :
    ui_policy_t × List action_t :=
  let r := ui_led now_ms LED_ERROR_PATTERN ui
  (r.1, r.2 ++ [ui_beep now_ms BEEP_ERROR_FAST])

/-- Internal state of controller_fsm.cpp (including the ui_policy state it
drives). -/
structure controller_fsm_t where
  state : controller_state_t
  bat : battery_state_t
  lockout : Bool
  err : error_code_t
  boot_deadline_ms : Nat
  shutdown_pending : Bool
  stop_pending : Bool
  ui : ui_policy_t
deriving DecidableEq, Repr, Inhabited

/-- `act_dvr_short`. -/
def act_dvr_short (now_ms : Nat) : action_t :=
  { t_enq_ms := now_ms, id := ACT_DVR_PRESS_SHORT, arg0 := 0, arg1 := 0 }

/-- `act_dvr_long`. -/
def act_dvr_long (now_ms : Nat) : action_t :=
  { t_enq_ms := now_ms, id := ACT_DVR_PRESS_LONG, arg0 := 0, arg1 := 0 }

/-- `set_state`: no-op when the state is unchanged; otherwise switch state and
run the presentation hook. -/
def set_state (now_ms : Nat) (next : controller_state_t)
    (f : controller_fsm_t) : controller_fsm_t × List action_t :=
  if next = f.state then (f, [])
  else
    let f1 : controller_fsm_t := { f with state := next }
    let r := ui_policy_on_state_enter now_ms next f1.err f1.bat f1.ui
    ({ f1 with ui := r.1 }, r.2)

/-- `set_error`. -/
def set_error (now_ms : Nat) (err : error_code_t)
    (next_state : controller_state_t) (f : controller_fsm_t) :
    controller_fsm_t × List action_t :=
  let f1 : controller_fsm_t := { f with err := err }
  let r1 := ui_policy_on_error now_ms err f1.ui
  let f2 : controller_fsm_t := { f1 with ui := r1.1 }
  let r2 := set_state now_ms next_state f2
  (r2.1, r1.2 ++ r2.2)

/-- `clear_error_if`. -/
def clear_error_if (next : controller_state_t) (f : controller_fsm_t) :
    controller_fsm_t :=
  if f.err ≠ ERR_NONE ∧ next ≠ STATE_ERROR ∧ next ≠ STATE_LOCKOUT then
    { f with err := ERR_NONE }
  else f

/-- `handle_battery_event` (battery events are dominant; `LockoutEnter` always
drives the machine to `STATE_LOCKOUT`). -/
def handle_battery_event (now_ms : Nat) (ev : event_t)
    (f : controller_fsm_t) : controller_fsm_t × List action_t :=
  match ev.id with
  | EV_BAT_STATE_CHANGED =>
    let f1 : controller_fsm_t := { f with bat := battery_state_of_raw ev.arg0 }
    if f1.lockout = false ∧ f1.bat = BAT_CRITICAL then
      let f2 : controller_fsm_t := { f1 with err := ERR_BAT_CRITICAL }
      set_state now_ms STATE_LOW_BAT f2
    else (f1, [])
  | EV_BAT_LOCKOUT_ENTER =>
    let f1 : controller_fsm_t :=
      { f with lockout := true, err := ERR_BAT_LOCKOUT }
    set_state now_ms STATE_LOCKOUT f1
  | EV_BAT_LOCKOUT_EXIT =>
    let f1 : controller_fsm_t := { f with lockout := false, err := ERR_NONE }
    set_state now_ms STATE_OFF f1
  | _ => (f, [])

/-- `handle_button_event`: lockout dominates, then the pending-shutdown
guard, then the per-state policy. -/
def handle_button_event (now_ms : Nat) (ev : event_t)
    (f : controller_fsm_t) : controller_fsm_t × List action_t :=
  let is_short := ev.id = EV_BTN_SHORT_PRESS
  let is_long := ev.id = EV_BTN_LONG_PRESS
  if ¬ is_short ∧ ¬ is_long then (f, [])
  else if f.lockout = true then (f, [])
  else if f.shutdown_pending = true then (f, [])
  else
    match f.state with
    | STATE_OFF => (f, [])
    | STATE_BOOTING => (f, [])
    | STATE_IDLE =>
      if is_short then (f, [act_dvr_short now_ms])
      else ({ f with shutdown_pending := true }, [act_dvr_long now_ms])
    | STATE_RECORDING =>
      if is_short then (f, [act_dvr_short now_ms])
      else
        ({ f with shutdown_pending := true, stop_pending := true },
         [act_dvr_short now_ms])
    | STATE_LOW_BAT =>
      if is_long then
        let f1 : controller_fsm_t := { f with shutdown_pending := true }
        if f1.state = STATE_RECORDING then
          ({ f1 with stop_pending := true }, [act_dvr_short now_ms])
        else (f1, [act_dvr_long now_ms])
      else (f, [])
    | STATE_ERROR =>
      if is_long then
        ({ f with shutdown_pending := true }, [act_dvr_long now_ms])
      else (f, [])
    | STATE_LOCKOUT => (f, [])

/-- `handle_dvr_semantic_event`. -/
def handle_dvr_semantic_event (now_ms : Nat) (ev : event_t)
    (f : controller_fsm_t) : controller_fsm_t × List action_t :=
  match ev.id with
  | EV_DVR_POWERED_ON_IDLE =>
    if f.state = STATE_BOOTING ∧ f.lockout = false then
      let f1 : controller_fsm_t := { f with err := ERR_NONE }
      let r1 := set_state now_ms STATE_IDLE f1
      let r2 := ui_policy_on_record_confirmed now_ms r1.1.ui
      ({ r1.1 with ui := r2.1 }, r1.2 ++ r2.2)
    else (f, [])
  | EV_DVR_POWERED_OFF =>
    if f.lockout = false then
      let f1 : controller_fsm_t :=
        { f with shutdown_pending := false, stop_pending := false }
      let f2 := clear_error_if STATE_OFF f1
      set_state now_ms STATE_OFF f2
    else (f, [])
  | EV_DVR_RECORD_STARTED =>
    if f.lockout = false ∧ f.shutdown_pending = false then
      let r1 := set_state now_ms STATE_RECORDING f
      let r2 := ui_policy_on_record_confirmed now_ms r1.1.ui
      ({ r1.1 with ui := r2.1 }, r1.2 ++ r2.2)
    else (f, [])
  | EV_DVR_RECORD_STOPPED =>
    if f.lockout = false then
      let r1 := set_state now_ms STATE_IDLE f
      let r2 := ui_policy_on_stop_confirmed now_ms r1.1.ui
      let f2 : controller_fsm_t := { r1.1 with ui := r2.1 }
      if f2.shutdown_pending = true ∧ f2.stop_pending = true then
        ({ f2 with stop_pending := false },
         r1.2 ++ r2.2 ++ [act_dvr_long now_ms])
      else (f2, r1.2 ++ r2.2)
    else (f, [])
  | EV_DVR_ERROR =>
    set_error now_ms (error_code_of_raw ev.arg0) STATE_ERROR f
  | _ => (f, [])

/-- The event dispatch inside `controller_fsm_poll`'s drain loop (battery
first, then DVR semantic events, then button gestures; everything else is
ignored). -/
def fsm_handle_event (now_ms : Nat) (ev : event_t) (f : controller_fsm_t) :
    controller_fsm_t × List action_t :=
  if ev.id = EV_BAT_STATE_CHANGED ∨ ev.id = EV_BAT_LOCKOUT_ENTER ∨
      ev.id = EV_BAT_LOCKOUT_EXIT then
    handle_battery_event now_ms ev f
  else if ev.id = EV_DVR_POWERED_ON_IDLE ∨ ev.id = EV_DVR_RECORD_STARTED ∨
      ev.id = EV_DVR_RECORD_STOPPED ∨ ev.id = EV_DVR_POWERED_OFF ∨
      ev.id = EV_DVR_ERROR then
    handle_dvr_semantic_event now_ms ev f
  else if ev.id = EV_BTN_SHORT_PRESS ∨ ev.id = EV_BTN_LONG_PRESS then
    handle_button_event now_ms ev f
  else (f, [])

/-- Fold the dispatch over a list of `(poll time, event)` pairs (state
only). -/
def fsm_run (f : controller_fsm_t) (l : List (Nat × event_t)) :
    controller_fsm_t :=
  l.foldl (fun s p => (fsm_handle_event p.1 p.2 s).1) f

/-- `controller_fsm_init` resting state (before the initial boot gesture). -/
def controller_fsm_init_state : controller_fsm_t :=
  { state := STATE_BOOTING, bat := BAT_UNKNOWN, lockout := false,
    err := ERR_NONE, boot_deadline_ms := T_BOOT_TIMEOUT_MS,
    shutdown_pending := false, stop_pending := false,
    ui := { last_state := STATE_OFF, last_led := LED_OFF } }

theorem set_state_lockout (now : Nat) (next : controller_state_t)
    (f : controller_fsm_t) : (set_state now next f).1.lockout = f.lockout := by
  unfold set_state
  split
  · rfl
  · rfl

theorem set_error_lockout (now : Nat) (err : error_code_t)
    (next : controller_state_t) (f : controller_fsm_t) :
    (set_error now err next f).1.lockout = f.lockout := by
  unfold set_error
  simp only
  rw [set_state_lockout]

theorem fsm_lockout_enter {ev : event_t} (hid : ev.id = EV_BAT_LOCKOUT_ENTER)
    (now : Nat) (f : controller_fsm_t) :
    (fsm_handle_event now ev f).1.state = STATE_LOCKOUT ∧
    (fsm_handle_event now ev f).1.lockout = true := by
  have h1 : fsm_handle_event now ev f = handle_battery_event now ev f := by
    unfold fsm_handle_event
    rw [hid]
    simp
  rw [h1]
  unfold handle_battery_event
  rw [hid]
  simp only
  unfold set_state
  by_cases h : STATE_LOCKOUT =
      ({ f with lockout := true, err := ERR_BAT_LOCKOUT } : controller_fsm_t).state
  · rw [if_pos h]
    exact ⟨h.symm, rfl⟩
  · rw [if_neg h]
    exact ⟨rfl, rfl⟩

theorem fsm_button_noop {ev : event_t} {f : controller_fsm_t}
    (hlock : f.lockout = true)
    (hbtn : ev.id = EV_BTN_SHORT_PRESS ∨ ev.id = EV_BTN_LONG_PRESS)
    (now : Nat) :
    fsm_handle_event now ev f = (f, []) := by
  rcases hbtn with h | h <;>
    simp [fsm_handle_event, handle_button_event, h, hlock]

theorem fsm_preserves_lockout {ev : event_t} {f : controller_fsm_t}
    (hlock : f.lockout = true) (hne : ev.id ≠ EV_BAT_LOCKOUT_EXIT)
    (now : Nat) : (fsm_handle_event now ev f).1.lockout = true := by
  cases hid : ev.id
  case EV_NONE | EV_LTC_INT_ASSERTED | EV_LTC_INT_DEASSERTED
    | EV_DVR_LED_PATTERN_CHANGED | EV_DVR_LED_EDGE_ON | EV_DVR_LED_EDGE_OFF =>
    simp [fsm_handle_event, hid, hlock]
  case EV_BTN_SHORT_PRESS =>
    rw [fsm_button_noop hlock (Or.inl hid) now]
    exact hlock
  case EV_BTN_LONG_PRESS =>
    rw [fsm_button_noop hlock (Or.inr hid) now]
    exact hlock
  case EV_BAT_STATE_CHANGED =>
    simp [fsm_handle_event, hid, handle_battery_event, hlock]
  case EV_BAT_LOCKOUT_ENTER =>
    exact (fsm_lockout_enter hid now f).2
  case EV_BAT_LOCKOUT_EXIT =>
    exact absurd hid hne
  case EV_DVR_POWERED_ON_IDLE | EV_DVR_RECORD_STARTED
    | EV_DVR_RECORD_STOPPED | EV_DVR_POWERED_OFF =>
    simp [fsm_handle_event, hid, handle_dvr_semantic_event, hlock]
  case EV_DVR_ERROR =>
    have h1 : fsm_handle_event now ev f = handle_dvr_semantic_event now ev f := by
      unfold fsm_handle_event
      rw [hid]
      simp
    rw [h1]
    unfold handle_dvr_semantic_event
    rw [hid]
    simp only
    rw [set_error_lockout]
    exact hlock

theorem fsm_run_preserves_lockout (f : controller_fsm_t)
    (l : List (Nat × event_t)) (hlock : f.lockout = true)
    (hno : ∀ p ∈ l, p.2.id ≠ EV_BAT_LOCKOUT_EXIT) :
    (fsm_run f l).lockout = true := by
  induction l generalizing f with
  | nil => exact hlock
  | cons p rest ih =>
    have hstep := fsm_preserves_lockout hlock (hno p (by simp)) p.1
    exact ih _ hstep (fun q hq => hno q (List.mem_cons_of_mem _ hq))

/-- C1: from every controller state, processing a `BatteryLockoutEnter` event
drives the FSM to `Lockout`; afterwards, along any event sequence containing
no `BatteryLockoutExit`, every `ShortPress` and `LongPress` event is a strict
no-op — the FSM state (including the presentation state) is unchanged and no
action is enqueued. -/
theorem C1_fsm_lockout_dominance :
    ∀ (f : controller_fsm_t) (now0 : Nat) (ev0 : event_t),
    ev0.id = EV_BAT_LOCKOUT_ENTER →
    ∀ (evs : List (Nat × event_t)),
    (∀ p ∈ evs, p.2.id ≠ EV_BAT_LOCKOUT_EXIT) →
    (fsm_handle_event now0 ev0 f).1.state = STATE_LOCKOUT ∧
    (∀ (pre post : List (Nat × event_t)) (p : Nat × event_t),
      evs = pre ++ p :: post →
      (p.2.id = EV_BTN_SHORT_PRESS ∨ p.2.id = EV_BTN_LONG_PRESS) →
      fsm_handle_event p.1 p.2 (fsm_run (fsm_handle_event now0 ev0 f).1 pre)
        = (fsm_run (fsm_handle_event now0 ev0 f).1 pre, [])) := by
  intro f now0 ev0 hid evs hno
  obtain ⟨hstate, hlock⟩ := fsm_lockout_enter hid now0 f
  refine ⟨hstate, ?_⟩
  intro pre post p hsplit hbtn
  have hprelock : (fsm_run (fsm_handle_event now0 ev0 f).1 pre).lockout = true := by
    apply fsm_run_preserves_lockout _ pre hlock
    intro q hq
    exact hno q (by rw [hsplit]; exact List.mem_append_left _ hq)
  exact fsm_button_noop hprelock hbtn p.1

/-- A concrete lockout-enter event (as the fuel gauge would emit it). -/
def c1_ev_enter : event_t :=
  { t_ms := 0, id := EV_BAT_LOCKOUT_ENTER, src := SRC_BATTERY,
    reason := EVR_HYSTERESIS, arg0 := 4, arg1 := 0 }

/-- A concrete short-press event. -/
def c1_ev_short : event_t :=
  { t_ms := 0, id := EV_BTN_SHORT_PRESS, src := SRC_BUTTON,
    reason := EVR_NONE, arg0 := 0, arg1 := 0 }

theorem C1_witness :
    (fsm_handle_event 100 c1_ev_enter controller_fsm_init_state).1.state
      = STATE_LOCKOUT ∧
    fsm_handle_event 200 c1_ev_short
        (fsm_run (fsm_handle_event 100 c1_ev_enter controller_fsm_init_state).1 [])
      = (fsm_run (fsm_handle_event 100 c1_ev_enter controller_fsm_init_state).1 [],
         []) := by
  have h := C1_fsm_lockout_dominance controller_fsm_init_state 100 c1_ev_enter
    rfl [(200, c1_ev_short)] (by decide)
  exact ⟨h.1, h.2 [] [] (200, c1_ev_short) rfl (Or.inl rfl)⟩

/-!
## The interpreter's queue drain (poll_led_pattern_events)

`drv_dvr_status_poll` drains the shared event queue, consumes
`EV_DVR_LED_PATTERN_CHANGED` events, stashes up to 16 other events and
re-pushes them afterwards; events the interpreter itself emits are pushed into
the same queue while the drain loop runs.  The loop runs until the queue is
empty; `fuel = 64` strictly dominates the possible iteration count (at most 15
initially queued events, at most two emissions per pattern transition, and the
stash-overflow `break`). -/

/-- `(dvr_led_pattern_t)(arg0 & 0xFF)`; junk raw values keep no constructor
and are mapped to `DVR_LED_UNKNOWN` (no in-tree producer emits them). -/
def dvr_pattern_of_raw (n : Nat) : dvr_led_pattern_t :=
  match n % 256 with
  | 1 => DVR_LED_OFF
  | 2 => DVR_LED_SOLID
  | 3 => DVR_LED_SLOW_BLINK
  | 4 => DVR_LED_FAST_BLINK
  | 5 => DVR_LED_ABNORMAL_BOOT
  | _ => DVR_LED_UNKNOWN

/-- Push a list of events one after another (`eventq_push` per element,
return values discarded as in the source). -/
def push_events (l : List event_t) (q : ringq_t event_t CFG_EVENT_QUEUE_SIZE) :
    ringq_t event_t CFG_EVENT_QUEUE_SIZE :=
  (ringq_push_list l q).2

/-- The drain loop of `poll_led_pattern_events`: pop until empty; consume
LED-pattern events (running `on_pattern_transition` and pushing its emissions
back into the queue); stash other events, or `break` once 16 are stashed
(dropping the event just popped). -/
def poll_led_loop :
    Nat → Nat → drv_dvr_status_t → ringq_t event_t CFG_EVENT_QUEUE_SIZE →
      List event_t →
      drv_dvr_status_t × ringq_t event_t CFG_EVENT_QUEUE_SIZE × List event_t
  | 0, _, st, q, stash => (st, q, stash)
  | fuel + 1, now, st, q, stash =>
    let r := ringq_pop q
    match r.1 with
    | none => (st, r.2, stash)
    | some ev =>
      if ev.id = EV_DVR_LED_PATTERN_CHANGED then
        let pat := dvr_pattern_of_raw ev.arg0
        if pat = st.last_pat then
          poll_led_loop fuel now st r.2 stash
        else
          let rt := on_pattern_transition now st.last_pat pat
            { st with last_pat := pat }
          poll_led_loop fuel now rt.1 (push_events rt.2 r.2) stash
      else
        if stash.length < 16 then
          poll_led_loop fuel now st r.2 (stash ++ [ev])
        else (st, r.2, stash)

/-- `poll_led_pattern_events`: drain, then re-push the stashed events in
order. -/
def poll_led_pattern_events (now : Nat) (st : drv_dvr_status_t)
    (q : ringq_t event_t CFG_EVENT_QUEUE_SIZE) :
    drv_dvr_status_t × ringq_t event_t CFG_EVENT_QUEUE_SIZE :=
  let r := poll_led_loop 64 now st q []
  (r.1, push_events r.2.2 r.2.1)

/-- `drv_dvr_status_poll` over the shared queue: drain + restash, then the
one-shot fault check (whose emission is pushed onto the queue). -/
def drv_dvr_status_poll_q (now : Nat) (st : drv_dvr_status_t)
    (q : ringq_t event_t CFG_EVENT_QUEUE_SIZE) :
    drv_dvr_status_t × ringq_t event_t CFG_EVENT_QUEUE_SIZE :=
  let r := poll_led_pattern_events now st q
  let rf := sd_fault_check now r.1
  (rf.1, push_events rf.2 r.2)

/-- A LED-pattern event (pattern `SOLID`) as `drv_dvr_led` would push it. -/
def c7_led_event : event_t :=
  { t_ms := 10, id := EV_DVR_LED_PATTERN_CHANGED, src := SRC_DVR_LED,
    reason := EVR_CLASSIFIER_STABLE, arg0 := 2, arg1 := 0 }

/-- The event queue holding exactly that LED-pattern event. -/
def c7_queue : ringq_t event_t CFG_EVENT_QUEUE_SIZE :=
  (push_core c7_led_event (ringq_init event_t CFG_EVENT_QUEUE_SIZE)).2

/-- C7 fails as stated: the status interpreter's poll removes events from the
event queue — after one poll, the LED-pattern event that was in the queue is
gone (consumed by the interpreter), so the set of events already in the queue
is not preserved by a non-FSM component. -/
theorem C7_counterexample :
    c7_led_event ∈ ringq_items c7_queue ∧
    c7_led_event ∉
      ringq_items (drv_dvr_status_poll_q 50 drv_dvr_status_init c7_queue).2 := by
  decide

theorem poll_led_loop_no_led :
    ∀ (n fuel now : Nat) (st : drv_dvr_status_t)
      (q : ringq_t event_t CFG_EVENT_QUEUE_SIZE) (stash : List event_t),
    ringq_wf q → ringq_count q = n → n ≤ fuel →
    (∀ e ∈ ringq_items q, e.id ≠ EV_DVR_LED_PATTERN_CHANGED) →
    stash.length + n ≤ 16 →
    (poll_led_loop fuel now st q stash).1 = st ∧
    ringq_wf (poll_led_loop fuel now st q stash).2.1 ∧
    ringq_count (poll_led_loop fuel now st q stash).2.1 = 0 ∧
    (poll_led_loop fuel now st q stash).2.2 = stash ++ ringq_items q := by
  intro n
  induction n with
  | zero =>
    intro fuel now st q stash hwf hc _ _ _
    have hitems : ringq_items q = [] := by simp [ringq_items, hc]
    have hte : q.tail = q.head := (ringq_count_zero_iff hwf).mp hc
    cases fuel with
    | zero =>
      exact ⟨rfl, hwf, hc, by simp [poll_led_loop, hitems]⟩
    | succ fl =>
      have hpop := ringq_pop_empty (q := q) hte
      refine ⟨?_, ?_, ?_, ?_⟩ <;>
        simp [poll_led_loop, hpop, hwf, hc, hitems]
  | succ m ih =>
    intro fuel now st q stash hwf hc hfuel hno hlen
    obtain ⟨p1, p2, p3, p4⟩ := ringq_pop_cons hwf (by omega)
    cases fuel with
    | zero => omega
    | succ fl =>
      have hx : (q.buf q.tail).id ≠ EV_DVR_LED_PATTERN_CHANGED := by
        apply hno
        rw [p4]
        exact List.mem_cons_self _ _
      have hlt : stash.length < 16 := by omega
      have hloop : poll_led_loop (fl + 1) now st q stash
          = poll_led_loop fl now st (ringq_pop q).2 (stash ++ [q.buf q.tail]) := by
        simp only [poll_led_loop]
        rw [p1]
        simp only [if_neg hx, if_pos hlt]
      rw [hloop]
      have hno2 : ∀ e ∈ ringq_items (ringq_pop q).2,
          e.id ≠ EV_DVR_LED_PATTERN_CHANGED := by
        intro e he
        apply hno
        rw [p4]
        exact List.mem_cons_of_mem _ he
      obtain ⟨g1, g2, g3, g4⟩ := ih fl now st (ringq_pop q).2
        (stash ++ [q.buf q.tail]) p2 (by omega) (by omega) hno2
        (by simp only [List.length_append, List.length_cons, List.length_nil]; omega)
      refine ⟨g1, g2, g3, ?_⟩
      rw [g4, p4]
      simp [List.append_assoc]

/-- C7 (amended): the status interpreter is in fact a second consumer of the
event queue, but it consumes only `EV_DVR_LED_PATTERN_CHANGED` events: when
the queue contains no LED-pattern event, `poll_led_pattern_events` leaves both
the interpreter state and the queue's content (set and order of events)
exactly unchanged.  LED-pattern events themselves are removed by the
interpreter (see the counterexample); the FSM remains the only consumer of all
other events. -/
theorem C7_interpreter_frame :
    ∀ (now : Nat) (st : drv_dvr_status_t)
      (q : ringq_t event_t CFG_EVENT_QUEUE_SIZE),
    ringq_wf q →
    (∀ e ∈ ringq_items q, e.id ≠ EV_DVR_LED_PATTERN_CHANGED) →
    (poll_led_pattern_events now st q).1 = st ∧
    ringq_items (poll_led_pattern_events now st q).2 = ringq_items q := by
  intro now st q hwf hno
  have hcle : ringq_count q ≤ CFG_EVENT_QUEUE_SIZE - 1 := ringq_count_le hwf
  obtain ⟨g1, g2, g3, g4⟩ := poll_led_loop_no_led (ringq_count q) 64 now st q []
    hwf rfl (by simp only [CFG_EVENT_QUEUE_SIZE] at hcle; omega) hno
    (by simp only [List.length_nil, CFG_EVENT_QUEUE_SIZE] at hcle ⊢; omega)
  unfold poll_led_pattern_events
  simp only
  refine ⟨g1, ?_⟩
  rw [g4]
  simp only [List.nil_append]
  obtain ⟨h1, h2, h3, h4, h5, h6⟩ := ringq_push_list_spec (ringq_items q)
    (poll_led_loop 64 now st q []).2.1 g2
    (by rw [g3]
        have : (ringq_items q).length = ringq_count q := by simp [ringq_items]
        rw [this]
        simp only [CFG_EVENT_QUEUE_SIZE] at hcle ⊢
        omega)
  have hempty : ringq_items (poll_led_loop 64 now st q []).2.1 = [] := by
    simp [ringq_items, g3]
  unfold push_events
  rw [h4, hempty, List.nil_append]

/-- A non-LED event sitting in the queue (a battery sample). -/
def c7_nonled_event : event_t :=
  { t_ms := 3, id := EV_BAT_STATE_CHANGED, src := SRC_BATTERY,
    reason := EVR_SAMPLE_PERIODIC, arg0 := 1, arg1 := 512 }

/-- The event queue holding exactly that battery event. -/
def c7_nonled_queue : ringq_t event_t CFG_EVENT_QUEUE_SIZE :=
  (push_core c7_nonled_event (ringq_init event_t CFG_EVENT_QUEUE_SIZE)).2

theorem C7_witness :
    (poll_led_pattern_events 50 drv_dvr_status_init c7_nonled_queue).1
      = drv_dvr_status_init ∧
    ringq_items (poll_led_pattern_events 50 drv_dvr_status_init c7_nonled_queue).2
      = ringq_items c7_nonled_queue :=
  C7_interpreter_frame 50 drv_dvr_status_init c7_nonled_queue
    (by decide) (by decide)

end Randall
